import Mathlib

/-!
Verification of the coordination service
(`xla/tsl/distributed_runtime/coordination/coordination_service.cc`).

The C++ implementation is embedded shallowly: the mutable service object
becomes a `ServiceState` record threaded explicitly through the entry
points, `absl::Status` becomes a small `Status` structure, hash maps
become association lists, hash sets become duplicate-free lists
maintained by insert-if-absent / filter, and asynchronous callbacks are
identified by numeric ids; each operation returns the list of
`(callback id, status)` events it fired, in firing order.  Wall-clock
reads (`Env::NowMicros`) become an explicit `now` argument.  Device-info
aggregation (`cluster_devices_`) and the key-value store's pending-getter
table are not referenced by any property below and are omitted from the
service state; the key-value map itself is modelled separately, exactly
as in the source it is guarded by its own mutex and touched by no other
entry point.
-/

/-! ## Statuses (absl::Status) -/

/-- Error codes used by the service (absl::StatusCode). -/
inductive StatusCode where
  | ok
  | cancelled
  | unknown
  | invalidArgument
  | deadlineExceeded
  | notFound
  | alreadyExists
  | failedPrecondition
  | aborted
  | unavailable
  | internal
deriving DecidableEq, Repr

/-- An absl::Status: a code, a message, and whether the coordination-service
error payload has been attached (`MakeCoordinationError`). -/
structure Status where
  code : StatusCode
  msg : String
  coordPayload : Bool
deriving DecidableEq, Repr

/-- absl::OkStatus() -/
def okStatus : Status := ⟨StatusCode.ok, "", false⟩

/-- status.ok() -/
def Status.isOk (s : Status) : Prop := s.code = StatusCode.ok

instance (s : Status) : Decidable s.isOk := by unfold Status.isOk; infer_instance

/-- MakeCoordinationError: attaches the coordination error payload. -/
def makeCoordinationError (c : StatusCode) (m : String) : Status := ⟨c, m, true⟩

/-! ## Task identity -/

/-- A coordinated task, identified by job name and task id
(proto `CoordinatedTask`; `CoordinatedTaskEqual` compares exactly these
two fields). -/
structure CoordinatedTask where
  job : String
  id : Nat
deriving DecidableEq, Repr

/-- GetTaskName: canonical string form of a task. -/
def getTaskName (t : CoordinatedTask) : String :=
  "/job:" ++ t.job ++ "/replica:0/task:" ++ toString t.id

/-! ## Association-list helpers (flat_hash_map / std::map values) -/

/-- Lookup in an association list (map find). -/
def alookup {α β : Type} [DecidableEq α] : List (α × β) → α → Option β
  | [], _ => none
  | p :: rest, a => if p.1 = a then some p.2 else alookup rest a

/-- Update every entry under a key (map value mutation through a reference;
with the map invariant of unique keys this is the single entry). -/
def aupdate {α β : Type} [DecidableEq α] (k : α) (f : β → β)
    (l : List (α × β)) : List (α × β) :=
  l.map (fun p => if p.1 = k then (p.1, f p.2) else p)

/-- try_emplace / operator[] on a missing key: insert a default value if the
key is absent, otherwise leave the map unchanged. -/
def ainsertIfAbsent {α β : Type} [DecidableEq α] (k : α) (v : β)
    (l : List (α × β)) : List (α × β) :=
  match alookup l k with
  | some _ => l
  | none => l ++ [(k, v)]

/-- Insert-or-assign for a key (operator[] followed by assignment). -/
def aset {α β : Type} [DecidableEq α] (k : α) (v : β)
    (l : List (α × β)) : List (α × β) :=
  match alookup l k with
  | some _ => aupdate k (fun _ => v) l
  | none => l ++ [(k, v)]

/-- map::erase of the entry found for a key (removes the first entry with
that key; under the map invariant there is at most one). -/
def aeraseKey {α β : Type} [DecidableEq α] (k : α) :
    List (α × β) → List (α × β)
  | [] => []
  | p :: rest => if p.1 = k then rest else p :: aeraseKey k rest

/-! ## Key normalization (NormalizeKey)

The C++ function walks the characters once: leading slashes of each path
segment are skipped, the segment's characters are copied, one slash is
kept after a segment when more input remains, and a final trailing slash
is dropped.  The embedding runs the same single pass as a left fold over
the characters; `acc` holds the characters emitted so far in reverse, so
the head of `acc` is the most recently written character (`dst - 1`). -/

/-- One character of the NormalizeKey copy loop: a non-slash character is
always copied; a slash is copied only when something has been written and
the previous written character is not a slash (the loop skips slash runs
and leading slashes). -/
def normStep (acc : List Char) (c : Char) : List Char :=
  if c = '/' then
    match acc with
    | [] => []
    | a :: rest => if a = '/' then a :: rest else '/' :: a :: rest
  else c :: acc

/-- The final fix-up of NormalizeKey: if the last written character is a
slash, remove it (`if (dst > begin && *(dst-1) == '/') dst--`).  `acc` is
reversed, so the last written character is the head. -/
def normTrim : List Char → List Char
  | [] => []
  | c :: rest => if c = '/' then rest else c :: rest

/-- NormalizeKey on the character list. -/
def normalizeChars (l : List Char) : List Char :=
  (normTrim (l.foldl normStep [])).reverse

/-- NormalizeKey. -/
def NormalizeKey (key : String) : String :=
  ⟨normalizeChars key.data⟩

/-! Canonical form: what NormalizeKey produces, and on which it is the
identity. -/

/-- No two adjacent slashes. -/
def NoDoubleSlash (l : List Char) : Prop :=
  List.Chain' (fun a b => ¬(a = '/' ∧ b = '/')) l

/-- A canonical key: no leading slash, no trailing slash, no slash runs. -/
def CanonKey (l : List Char) : Prop :=
  l.head? ≠ some '/' ∧ l.getLast? ≠ some '/' ∧ NoDoubleSlash l

/-- Invariant of the fold accumulator: no double slashes, and the first
written character (the last of `acc`) is not a slash. -/
def AccInv (acc : List Char) : Prop :=
  NoDoubleSlash acc ∧ acc.getLast? ≠ some '/'

/-- Condition under which every character of the remaining input is copied
verbatim: each slash in the input is preceded (through the accumulator) by
a non-slash character. -/
def ChainOK : Option Char → List Char → Prop
  | _, [] => True
  | p, c :: cs => (c = '/' → ∃ a, p = some a ∧ a ≠ '/') ∧ ChainOK (some c) cs

/-! ## Key-value store (kv_store_, an ordered std::map)

The store is embedded as an association list sorted strictly by key
(`std::map` iteration order); `lower_bound` on the sorted list is the
`dropWhile` of the keys below the bound, and the contiguous scan of the
directory range is a `takeWhile`/`dropWhile` of the prefix test
(`std::mismatch` against `dir`). -/

/-- The directory-prefix test performed by `std::mismatch(dir.begin(),
dir.end(), key.begin())`: `dir` is a character-wise prefix of `key`. -/
def strHasPfx (d s : String) : Prop := d.toList <+: s.toList

instance (d s : String) : Decidable (strHasPfx d s) := by
  unfold strHasPfx; infer_instance

/-- DeleteKeyValue: erase the contiguous range of keys below
`norm_key + "/"`-bound … first non-prefix key (the directory sweep), then
erase `norm_key` itself if present.  Always returns OK. -/
def DeleteKeyValue (kv : List (String × String)) (key : String) :
    Status × List (String × String) :=
  let nk := NormalizeKey key
  let dir := nk ++ "/"
  let front := kv.takeWhile (fun p => decide (p.1 < dir))
  let rest := kv.dropWhile (fun p => decide (p.1 < dir))
  let kept := rest.dropWhile (fun p => decide (strHasPfx dir p.1))
  (okStatus, aeraseKey nk (front ++ kept))

/-! ## Service state

The mutable members of `CoordinationServiceStandaloneImpl` guarded by
`state_mu_`, plus the `ErrorPollingState` and the monotonic
`client_polling_for_error_` latch.  `cluster_state_` is keyed in the C++
by the canonical task-name string and every use converts back and forth
with the round-trip pure `GetTaskName`/`GetTaskFromName`, so the
embedding keys it by the task directly.  Callback values are numeric
identifiers chosen by the caller; each operation returns the list of
`(callback, status)` firings it performed, in order. -/

/-- CoordinatedTaskState (only the values the service stores). -/
inductive TaskStateEnum where
  | disconnected
  | connected
  | error
deriving DecidableEq, Repr

/-- Per-task state (`TaskState` nested class). -/
structure TaskState where
  taskIncarnation : Nat
  state : TaskStateEnum
  status : Status
  lastHeartbeatUs : Nat
  disconnectGracePeriodUs : Nat
  ongoingBarriers : List String
deriving DecidableEq, Repr

/-- A freshly constructed TaskState (DISCONNECTED, default-OK status). -/
def initTaskState : TaskState :=
  ⟨0, TaskStateEnum.disconnected, okStatus, 0, 0, []⟩

/-- Per-barrier state (`BarrierState` struct). -/
structure BarrierState where
  passed : Bool
  result : Status
  deadlineInMicros : Nat
  numPendingTasks : Int
  tasksAtBarrier : List (CoordinatedTask × Bool)
  doneCallbacks : List Nat
  initiatingTask : CoordinatedTask
deriving DecidableEq, Repr

/-- A default-constructed BarrierState (what `try_emplace`/operator[]
create). -/
def initBarrierState : BarrierState :=
  ⟨false, ⟨StatusCode.unknown, "Invalid barrier result.", false⟩, 0, 0, [], [],
    ⟨"", 0⟩⟩

/-- Construction-time configuration.  `heartbeatTimeoutMs` holds the
already-resolved member `heartbeat_timeout_ms_` (the 0 ⇒ 10000 defaulting
happens in the constructor); `hasClientCache` selects push mode. -/
structure ServiceConfig where
  heartbeatTimeoutMs : Nat
  allowNewIncarnationToReconnect : Bool
  hasClientCache : Bool
  recoverableJobs : List String
  serviceIncarnation : Nat
  coordinatedJobs : List (String × Nat)
deriving DecidableEq, Repr

/-- Reserved barrier id for device propagation. -/
def devicePropagationBarrierId (cfg : ServiceConfig) : String :=
  "WaitForAllTasks::" ++ toString cfg.serviceIncarnation

/-- Reserved barrier id for shutdown. -/
def shutdownBarrierId (cfg : ServiceConfig) : String :=
  "Shutdown::" ++ toString cfg.serviceIncarnation

/-- The service state guarded by `state_mu_` (plus the polling latch). -/
structure ServiceState where
  clusterState : List (CoordinatedTask × TaskState)
  barriers : List (String × BarrierState)
  ongoingBarriers : List String
  shuttingDown : Bool
  clientPollingForError : Bool
  errResponded : Bool
  errError : Status
  errDoneCallbacks : List Nat
  errPollingTaskNames : List String
deriving DecidableEq, Repr

/-- Callback firings, in order. -/
abbrev Events : Type := List (Nat × Status)

/-- The state after the constructor: one DISCONNECTED record per declared
`(job, i)`, everything else empty. -/
def initState (cfg : ServiceConfig) : ServiceState :=
  { clusterState :=
      (cfg.coordinatedJobs.map
        (fun j => (List.range j.2).map
          (fun i => (CoordinatedTask.mk j.1 i, initTaskState)))).flatten,
    barriers := [], ongoingBarriers := [], shuttingDown := false,
    clientPollingForError := false, errResponded := false,
    errError := okStatus, errDoneCallbacks := [], errPollingTaskNames := [] }

/-! ### TaskState methods -/

/-- TaskState::SetConnected. -/
def TaskState.setConnected (now inc : Nat) (ts : TaskState) : TaskState :=
  { ts with state := TaskStateEnum.connected, status := okStatus,
            taskIncarnation := inc, lastHeartbeatUs := now }

/-- TaskState::Disconnect. -/
def TaskState.disconnect (now graceUs : Nat) (ts : TaskState) : TaskState :=
  { ts with disconnectGracePeriodUs := now + graceUs,
            state := TaskStateEnum.disconnected, status := okStatus }

/-- TaskState::SetError (keeps the first error). -/
def TaskState.setErrorIfNew (st : Status) (ts : TaskState) : TaskState :=
  if ts.state = TaskStateEnum.error then ts
  else { ts with state := TaskStateEnum.error, status := st }

/-- TaskState::IsDisconnectedBeyondGracePeriod. -/
def TaskState.beyondGrace (now : Nat) (ts : TaskState) : Prop :=
  ts.state = TaskStateEnum.disconnected ∧ ts.disconnectGracePeriodUs < now

instance (now : Nat) (ts : TaskState) : Decidable (ts.beyondGrace now) := by
  unfold TaskState.beyondGrace; infer_instance

/-! ### PassBarrier and DisconnectTask

`PassBarrier` runs: set `passed`/`result`; (device hook, omitted: it only
writes `cluster_devices_`); `ExitBarrier` on every participant; the
shutdown hook; clear `tasks_at_barrier`; drop the id from
`ongoing_barriers_`; fire and clear the callbacks.  The shutdown hook
disconnects every arrived task, and each disconnect fails the barriers
that task is still in through a recursive `PassBarrier`; that inner call
can never be the barrier being passed, because `ExitBarrier` already
removed it from every participant, so the inner call is embedded as the
hook-free `passBarrierNoHook`. -/

/-- ExitBarrier for every participant (hash-set erase = filter). -/
def exitBarrierAll (bid : String) (tasks : List (CoordinatedTask × Bool))
    (cs : List (CoordinatedTask × TaskState)) :
    List (CoordinatedTask × TaskState) :=
  tasks.foldl
    (fun cs p => aupdate p.1
      (fun ts => { ts with
        ongoingBarriers := ts.ongoingBarriers.filter (fun x => x ≠ bid) }) cs)
    cs

/-- First half of PassBarrier: record `passed`/`result` and remove the id
from every participant's ongoing set. -/
def passBarrierStart (bid : String) (result : Status) (s : ServiceState) :
    ServiceState :=
  let bs1 := aupdate bid
    (fun b => { b with passed := true, result := result }) s.barriers
  let s1 := { s with barriers := bs1 }
  match alookup s1.barriers bid with
  | none => s1
  | some b =>
    { s1 with clusterState := exitBarrierAll bid b.tasksAtBarrier s1.clusterState }

/-- Last part of PassBarrier: clear the participant map, drop the id from
the global ongoing set, fire the callbacks with the result, clear them. -/
def passBarrierFinish (bid : String) (result : Status)
    (se : ServiceState × Events) : ServiceState × Events :=
  let s := se.1
  let cbs := match alookup s.barriers bid with
    | some b => b.doneCallbacks
    | none => []
  let bs1 := aupdate bid
    (fun b => { b with tasksAtBarrier := [], doneCallbacks := [] }) s.barriers
  let ob1 := s.ongoingBarriers.filter (fun x => x ≠ bid)
  ({ s with barriers := bs1, ongoingBarriers := ob1 },
    se.2 ++ cbs.map (fun c => (c, result)))

/-- PassBarrier as called from within the shutdown hook (no re-entrant
hook; see the section comment). -/
def passBarrierNoHook (bid : String) (result : Status) (s : ServiceState) :
    ServiceState × Events :=
  passBarrierFinish bid result (passBarrierStart bid result s, [])

/-- DisconnectTask, parameterised by the PassBarrier variant used for the
barriers the task is still in. -/
def disconnectTaskWith
    (pass : String → Status → ServiceState → ServiceState × Events)
    (cfg : ServiceConfig) (now : Nat) (task : CoordinatedTask)
    (s : ServiceState) : Status × ServiceState × Events :=
  if s.shuttingDown then
    (makeCoordinationError StatusCode.internal
      ("Coordination service has stopped. DisconnectTask() failed for task_name="
        ++ getTaskName task), s, [])
  else
    match alookup s.clusterState task with
    | none =>
      (makeCoordinationError StatusCode.invalidArgument
        ("Unexpected disconnect request with task_name=" ++ getTaskName task),
        s, [])
    | some ts =>
      if ts.state = TaskStateEnum.disconnected then
        (makeCoordinationError StatusCode.failedPrecondition
          ("The task is already disconnected: " ++ getTaskName task), s, [])
      else
        let cs1 := aupdate task
          (TaskState.disconnect now (cfg.heartbeatTimeoutMs * 1000))
          s.clusterState
        let s1 := { s with clusterState := cs1 }
        let r := ts.ongoingBarriers.foldl
          (fun (acc : ServiceState × Events) bid =>
            let err := makeCoordinationError StatusCode.internal
              ("Barrier failed because a task has disconnected. Barrier Id: "
                ++ bid ++ ", Task: " ++ getTaskName task)
            let nb := ainsertIfAbsent bid initBarrierState acc.1.barriers
            let acc1 := { acc.1 with barriers := nb }
            let pr := pass bid err acc1
            (pr.1, acc.2 ++ pr.2))
          (s1, [])
        (okStatus, r.1, r.2)

/-- The shutdown-barrier hook of PassBarrier: disconnect every arrived
task (individual failures are only logged); tasks that had not arrived
receive an outbound `ReportServiceErrorToTaskAsync` RPC, which does not
change the service state. -/
def shutdownHook (cfg : ServiceConfig) (now : Nat) (bid : String)
    (tasks : List (CoordinatedTask × Bool)) (s : ServiceState) :
    ServiceState × Events :=
  if bid = shutdownBarrierId cfg then
    tasks.foldl
      (fun (acc : ServiceState × Events) p =>
        if p.2 then
          let dr := disconnectTaskWith passBarrierNoHook cfg now p.1 acc.1
          (dr.2.1, acc.2 ++ dr.2.2)
        else acc)
      (s, [])
  else (s, [])

/-- PassBarrier: the single barrier-completion site. -/
def PassBarrier (cfg : ServiceConfig) (now : Nat) (bid : String)
    (result : Status) (s : ServiceState) : ServiceState × Events :=
  let tasks := match alookup s.barriers bid with
    | some b => b.tasksAtBarrier
    | none => []
  passBarrierFinish bid result
    (shutdownHook cfg now bid tasks (passBarrierStart bid result s))

/-- DisconnectTask (the public path, also ResetTask). -/
def DisconnectTask (cfg : ServiceConfig) (now : Nat) (task : CoordinatedTask)
    (s : ServiceState) : Status × ServiceState × Events :=
  disconnectTaskWith (PassBarrier cfg now) cfg now task s

/-- SetTaskError: move the task to ERROR (an earlier error is kept) and
fail every barrier it is still in. -/
def SetTaskError (cfg : ServiceConfig) (now : Nat) (task : CoordinatedTask)
    (error : Status) (s : ServiceState) : ServiceState × Events :=
  let cs1 := aupdate task (TaskState.setErrorIfNew error) s.clusterState
  let s1 := { s with clusterState := cs1 }
  let obs := match alookup s1.clusterState task with
    | some ts => ts.ongoingBarriers
    | none => []
  obs.foldl
    (fun (acc : ServiceState × Events) bid =>
      let berr := makeCoordinationError StatusCode.internal
        ("Barrier failed beacuse a task is in error. Barrier Id: " ++ bid
          ++ ", Task: " ++ getTaskName task ++ "Error: " ++ error.msg)
      let nb := ainsertIfAbsent bid initBarrierState acc.1.barriers
      let acc1 := { acc.1 with barriers := nb }
      let pr := PassBarrier cfg now bid berr acc1
      (pr.1, acc.2 ++ pr.2))
    (s1, [])

/-! ### Error polling and propagation -/

/-- ErrorPollingState::SetError behind SendErrorPollingResponse: first
error wins, fires every queued callback, latches `responded`. -/
def SendErrorPollingResponse (error : Status) (s : ServiceState) :
    ServiceState × Events :=
  if s.errResponded then (s, [])
  else
    ({ s with errResponded := true, errError := error, errDoneCallbacks := [] },
      s.errDoneCallbacks.map (fun c => (c, error)))

/-- Stop: mark shutting down, fail every not-yet-passed barrier with
Aborted, clear the barrier and task tables (in that order: PassBarrier
reads the task records), and cancel pending error polls.  Pending
key-value getters live in the separately modelled KV store. -/
def Stop (cfg : ServiceConfig) (now : Nat) (s : ServiceState) :
    ServiceState × Events :=
  let s1 := { s with shuttingDown := true }
  let bids := s1.barriers.map (fun p => p.1)
  let r := bids.foldl
    (fun (acc : ServiceState × Events) bid =>
      match alookup acc.1.barriers bid with
      | none => acc
      | some b =>
        if b.passed then acc
        else
          let err := makeCoordinationError StatusCode.aborted
            ("Barrier failed because service is shutting down. Barrier_id: "
              ++ bid)
          let pr := PassBarrier cfg now bid err acc.1
          (pr.1, acc.2 ++ pr.2))
    (s1, [])
  let s2 := { r.1 with barriers := [], clusterState := [] }
  if s2.clientPollingForError then
    let sr := SendErrorPollingResponse
      ⟨StatusCode.cancelled,
        "Coordination service is shutting down. Cancelling PollForErrorAsync()",
        false⟩ s2
    (sr.1, r.2 ++ sr.2)
  else (s2, r.2)

/-- SendErrorPollingResponseOrStopService: deliver through the polling
channel when somebody has polled, else stop the service; returns true iff
the service stopped. -/
def SendErrorPollingResponseOrStopService (cfg : ServiceConfig) (now : Nat)
    (error : Status) (s : ServiceState) : Bool × ServiceState × Events :=
  if s.clientPollingForError then
    let r := SendErrorPollingResponse error s
    (false, r.1, r.2)
  else
    let r := Stop cfg now s
    (true, r.1, r.2)

/-- PropagateError: recoverable jobs do not propagate; push mode sends
outbound RPCs to every connected task (no service-state change); pull
mode routes the stored error of the source task through the polling
channel (or stops the service) as soon as the scan meets a connected
task. -/
def PropagateError (cfg : ServiceConfig) (now : Nat)
    (sourceTask : CoordinatedTask) (s : ServiceState) : ServiceState × Events :=
  if sourceTask.job ∈ cfg.recoverableJobs then (s, [])
  else
    let error := match alookup s.clusterState sourceTask with
      | some ts => ts.status
      | none => okStatus
    if cfg.hasClientCache then (s, [])
    else if s.clusterState.any
        (fun p => decide (p.2.state = TaskStateEnum.connected)) then
      let r := SendErrorPollingResponseOrStopService cfg now error s
      (r.2.1, r.2.2)
    else (s, [])

/-! ### Registration, heartbeats, task errors -/

/-- RegisterTask. -/
def RegisterTask (cfg : ServiceConfig) (now : Nat) (task : CoordinatedTask)
    (incarnation : Nat) (s : ServiceState) : Status × ServiceState × Events :=
  if s.shuttingDown then
    (makeCoordinationError StatusCode.internal
      ("Coordination service has stopped. RegisterTask() from task: "
        ++ getTaskName task ++ " failed."), s, [])
  else
    match alookup s.clusterState task with
    | none =>
      (makeCoordinationError StatusCode.invalidArgument
        ("Unexpected task registered with task_name=" ++ getTaskName task),
        s, [])
    | some ts =>
      if ts.state = TaskStateEnum.disconnected ∨
          (cfg.allowNewIncarnationToReconnect ∧
            ts.status.code = StatusCode.unavailable ∧
            ts.status.coordPayload = true) then
        let cs1 := aupdate task (TaskState.setConnected now incarnation)
          s.clusterState
        (okStatus, { s with clusterState := cs1 }, [])
      else if ts.state = TaskStateEnum.connected then
        if ts.taskIncarnation = incarnation then
          let cs1 := aupdate task (TaskState.setConnected now incarnation)
            s.clusterState
          (okStatus, { s with clusterState := cs1 }, [])
        else
          let err : Status := ⟨StatusCode.aborted, getTaskName task
            ++ " unexpectedly tried to connect with a different incarnation. It has likely restarted.",
            true⟩
          let r1 := SetTaskError cfg now task err s
          let r2 := PropagateError cfg now task r1.1
          (err, r2.1, r1.2 ++ r2.2)
      else
        let err : Status := ⟨StatusCode.aborted, getTaskName task
          ++ " unexpectedly tried to connect while it is already in error. ResetTask() should be called before a subsequent connect attempt.",
          true⟩
        let r1 := SetTaskError cfg now task err s
        let r2 := PropagateError cfg now task r1.1
        (err, r2.1, r1.2 ++ r2.2)

/-- RecordHeartbeat.  The per-task incarnation check and heartbeat write
of `TaskState::RecordHeartbeat` are inlined after the service-level
checks (the task status is OK when it runs, so its own non-OK early
return is dead there). -/
def RecordHeartbeat (cfg : ServiceConfig) (now : Nat) (task : CoordinatedTask)
    (incarnation : Nat) (s : ServiceState) : Status × ServiceState × Events :=
  if s.shuttingDown then
    (makeCoordinationError StatusCode.internal
      ("Coordination service has stopped. RecordHeartbeat() from task: "
        ++ getTaskName task ++ " failed."), s, [])
  else
    match alookup s.clusterState task with
    | none =>
      (makeCoordinationError StatusCode.invalidArgument
        ("Unexpected heartbeat request from task: " ++ getTaskName task
          ++ ". This usually implies a configuration error."), s, [])
    | some ts =>
      if ¬ ts.status.isOk then (ts.status, s, [])
      else if ts.beyondGrace now then
        (makeCoordinationError StatusCode.invalidArgument
          ("Task with task_name=" ++ getTaskName task
            ++ " must be registered before sending heartbeat messages"), s, [])
      else if incarnation ≠ ts.taskIncarnation then
        let err := makeCoordinationError StatusCode.aborted
          ("Incarnation ID mismatch: expecting " ++ toString ts.taskIncarnation
            ++ " but got " ++ toString incarnation
            ++ ". This means the remote task has restarted.")
        let r1 := SetTaskError cfg now task err s
        let r2 := PropagateError cfg now task r1.1
        (err, r2.1, r1.2 ++ r2.2)
      else
        let cs1 := aupdate task (fun t => { t with lastHeartbeatUs := now })
          s.clusterState
        (okStatus, { s with clusterState := cs1 }, [])

/-- ReportTaskError. -/
def ReportTaskError (cfg : ServiceConfig) (now : Nat) (task : CoordinatedTask)
    (error : Status) (s : ServiceState) : Status × ServiceState × Events :=
  if s.shuttingDown then
    (makeCoordinationError StatusCode.internal
      "Coordination service has stopped. ReportTaskError() failed.", s, [])
  else
    match alookup s.clusterState task with
    | none =>
      (makeCoordinationError StatusCode.invalidArgument
        ("Unexpected request from task " ++ getTaskName task), s, [])
    | some ts =>
      if ts.state ≠ TaskStateEnum.connected then
        (makeCoordinationError StatusCode.failedPrecondition
          "The task is not connected or already has an error.", s, [])
      else
        let r1 := SetTaskError cfg now task error s
        let r2 := PropagateError cfg now task r1.1
        (okStatus, r2.1, r1.2 ++ r2.2)

/-- ResetTask. -/
def ResetTask (cfg : ServiceConfig) (now : Nat) (task : CoordinatedTask)
    (s : ServiceState) : Status × ServiceState × Events :=
  DisconnectTask cfg now task s

/-- One entry of the GetTaskState response. -/
structure TaskStateInfo where
  task : CoordinatedTask
  state : TaskStateEnum
  errorCode : StatusCode
  errorMessage : String
  hasErrorPayload : Bool
deriving DecidableEq, Repr

/-- GetTaskState, embedded totally: the C++ reads
`cluster_state_[task_name]` with operator[], which for an undeclared task
inserts a null entry and immediately dereferences it; the embedding makes
the lookup an `Option` and returns `none` on that branch. -/
def GetTaskState (s : ServiceState) :
    List CoordinatedTask → Option (List TaskStateInfo)
  | [] => some []
  | t :: rest =>
    match alookup s.clusterState t with
    | none => none
    | some ts =>
      match GetTaskState s rest with
      | none => none
      | some l =>
        some (⟨t, ts.state, ts.status.code, ts.status.msg,
          decide (¬ ts.status.isOk)⟩ :: l)

/-! ### Barriers -/

/-- ValidateTaskArgs: participant-set consistency across barrier calls. -/
def ValidateTaskArgs (tasksArgs : List CoordinatedTask)
    (tasksAtBarrier : List (CoordinatedTask × Bool)) (clusterSize : Nat) :
    Bool :=
  if tasksArgs.isEmpty then decide (tasksAtBarrier.length = clusterSize)
  else if tasksAtBarrier.length ≠ tasksArgs.length then false
  else tasksArgs.all (fun t => (alookup tasksAtBarrier t).isSome)

/-- The numeric value of a status code (absl::StatusCode), used in the
CancelBarrier message. -/
def statusCodeNum : StatusCode → Nat
  | StatusCode.ok => 0
  | StatusCode.cancelled => 1
  | StatusCode.unknown => 2
  | StatusCode.invalidArgument => 3
  | StatusCode.deadlineExceeded => 4
  | StatusCode.notFound => 5
  | StatusCode.alreadyExists => 6
  | StatusCode.failedPrecondition => 9
  | StatusCode.aborted => 10
  | StatusCode.unavailable => 14
  | StatusCode.internal => 13

/-- CancelBarrier. -/
def CancelBarrier (cfg : ServiceConfig) (now : Nat) (bid : String)
    (task : CoordinatedTask) (s : ServiceState) :
    Status × ServiceState × Events :=
  if s.shuttingDown then
    (makeCoordinationError StatusCode.internal
      "Coordination service has stopped. CancelBarrier() failed.", s, [])
  else
    let bs1 := ainsertIfAbsent bid initBarrierState s.barriers
    let s1 := { s with barriers := bs1 }
    match alookup s1.barriers bid with
    | none => (okStatus, s1, [])
    | some b =>
      if b.passed then
        (makeCoordinationError StatusCode.failedPrecondition
          ("Barrier (" ++ bid ++ ") has already been passed with status code: "
            ++ toString (statusCodeNum b.result.code)), s1, [])
      else
        let cancelled := makeCoordinationError StatusCode.cancelled
          ("Barrier (" ++ bid ++ ") is cancelled by task: " ++ getTaskName task)
        let pr := PassBarrier cfg now bid cancelled s1
        (okStatus, pr.1, pr.2)

/-- The participant map built from an explicit participant list, entry by
entry (`barrier->tasks_at_barrier[task] = false`); stops at the first task
that is not in the cluster and returns it. -/
def buildParticipants (s : ServiceState) :
    List CoordinatedTask → List (CoordinatedTask × Bool) →
    List (CoordinatedTask × Bool) × Option CoordinatedTask
  | [], acc => (acc, none)
  | t :: rest, acc =>
    if (alookup s.clusterState t).isSome then
      buildParticipants s rest (aset t false acc)
    else (acc, some t)

/-- The scan for a participant already in ERROR at barrier creation. -/
def findErrorParticipant (s : ServiceState)
    (tasks : List (CoordinatedTask × Bool)) : Option CoordinatedTask :=
  match tasks.find? (fun p =>
    match alookup s.clusterState p.1 with
    | some ts => decide (ts.state = TaskStateEnum.error)
    | none => false) with
  | some p => some p.1
  | none => none

/-- JoinBarrier on every participant (hash-set emplace). -/
def joinBarrierAll (bid : String) (tasks : List (CoordinatedTask × Bool))
    (cs : List (CoordinatedTask × TaskState)) :
    List (CoordinatedTask × TaskState) :=
  tasks.foldl
    (fun cs p => aupdate p.1
      (fun ts => { ts with ongoingBarriers :=
        if bid ∈ ts.ongoingBarriers then ts.ongoingBarriers
        else ts.ongoingBarriers ++ [bid] }) cs)
    cs

/-- The common tail of BarrierAsync once the record exists (the passed
check, callback registration, argument validation and arrival
bookkeeping). -/
def barrierMainPath (cfg : ServiceConfig) (now : Nat) (bid : String)
    (task : CoordinatedTask) (participatingTasks : List CoordinatedTask)
    (cb : Nat) (s : ServiceState) : ServiceState × Events :=
  match alookup s.barriers bid with
  | none => (s, [])
  | some b =>
    if b.passed then
      if bid = shutdownBarrierId cfg then
        let dr := DisconnectTask cfg now task s
        if ¬ dr.1.isOk then (dr.2.1, dr.2.2 ++ [(cb, dr.1)])
        else
          let res := match alookup dr.2.1.barriers bid with
            | some b2 => b2.result
            | none => b.result
          (dr.2.1, dr.2.2 ++ [(cb, res)])
      else (s, [(cb, b.result)])
    else
      let bs1 := aupdate bid
        (fun b => { b with doneCallbacks := b.doneCallbacks ++ [cb] })
        s.barriers
      let s1 := { s with barriers := bs1 }
      if ValidateTaskArgs participatingTasks b.tasksAtBarrier
          s.clusterState.length then
        -- arrival bookkeeping; operator[] inserts a fresh false entry for a
        -- caller missing from the participant map before the test
        let arrived := match alookup b.tasksAtBarrier task with
          | some v => v
          | none => false
        if arrived then (s1, [])
        else
          let bs2 := aupdate bid
            (fun b => { b with
              tasksAtBarrier := aset task true b.tasksAtBarrier,
              numPendingTasks := b.numPendingTasks - 1 })
            s1.barriers
          let s2 := { s1 with barriers := bs2 }
          if b.numPendingTasks - 1 = 0 then
            PassBarrier cfg now bid okStatus s2
          else (s2, [])
      else
        let err := makeCoordinationError StatusCode.invalidArgument
          ("Conflicting tasks specified for the same barrier: " ++ bid)
        PassBarrier cfg now bid err s1

/-- BarrierAsync. -/
def BarrierAsync (cfg : ServiceConfig) (now : Nat) (bid : String)
    (timeoutMicros : Nat) (task : CoordinatedTask)
    (participatingTasks : List CoordinatedTask) (cb : Nat)
    (s : ServiceState) : ServiceState × Events :=
  let among := participatingTasks.any
    (fun t => decide (getTaskName t = getTaskName task))
  if ¬ participatingTasks.isEmpty ∧ among = false then
    if s.shuttingDown then
      (s, [(cb, makeCoordinationError StatusCode.internal
        "Barrier requested after coordination service has shut down.")])
    else
      let err := makeCoordinationError StatusCode.invalidArgument
        ("A non-participating task (" ++ getTaskName task
          ++ ") called the barrier: " ++ bid)
      let bs1 := ainsertIfAbsent bid initBarrierState s.barriers
      let s1 := { s with barriers := bs1 }
      let pr := PassBarrier cfg now bid err s1
      (pr.1, pr.2 ++ [(cb, err)])
  else if s.shuttingDown then
    (s, [(cb, makeCoordinationError StatusCode.internal
      "Barrier requested after coordination service has shut down.")])
  else if (alookup s.barriers bid).isSome then
    barrierMainPath cfg now bid task participatingTasks cb s
  else
    -- try_emplace inserted a fresh record: initialise it
    let pb :=
      if participatingTasks.isEmpty then
        (s.clusterState.map (fun p => (p.1, false)), (none : Option CoordinatedTask))
      else buildParticipants s participatingTasks []
    match pb.2 with
    | some badTask =>
      let b1 := { initBarrierState with
        initiatingTask := task,
        tasksAtBarrier := pb.1 }
      let s2 := { s with barriers := aset bid b1 s.barriers }
      let err := makeCoordinationError StatusCode.invalidArgument
        ("Unexpected task (" ++ getTaskName badTask
          ++ ") that is not in the cluster called the barrier. Barrier Id: "
          ++ bid)
      let pr := PassBarrier cfg now bid err s2
      (pr.1, pr.2 ++ [(cb, err)])
    | none =>
      let tab := pb.1
      let npend : Int := tab.length
      match findErrorParticipant s tab with
      | some badTask =>
        let b1 := { initBarrierState with
          initiatingTask := task,
          tasksAtBarrier := tab,
          numPendingTasks := npend }
        let s2 := { s with barriers := aset bid b1 s.barriers }
        let err := makeCoordinationError StatusCode.internal
          ("Task (" ++ getTaskName badTask
            ++ ") is already in error before the barrier was called. Barrier Id: "
            ++ bid)
        let pr := PassBarrier cfg now bid err s2
        (pr.1, pr.2 ++ [(cb, err)])
      | none =>
        let b1 := { initBarrierState with
          initiatingTask := task,
          tasksAtBarrier := tab,
          numPendingTasks := npend,
          deadlineInMicros := now + timeoutMicros }
        let ob1 := if bid ∈ s.ongoingBarriers then s.ongoingBarriers
          else s.ongoingBarriers ++ [bid]
        let s2 := { s with
          barriers := aset bid b1 s.barriers,
          ongoingBarriers := ob1 }
        let s3 := { s2 with clusterState := joinBarrierAll bid tab s2.clusterState }
        barrierMainPath cfg now bid task participatingTasks cb s3

/-! ### Error polling entry point and the heartbeat sweep -/

/-- PollForErrorAsync. -/
def PollForErrorAsync (cfg : ServiceConfig) (now : Nat)
    (task : CoordinatedTask) (cb : Nat) (s : ServiceState) :
    ServiceState × Events :=
  if s.shuttingDown then
    (s, [(cb, makeCoordinationError StatusCode.internal
      "PollForError requested after coordination service has shut down.")])
  else if cfg.hasClientCache then
    (s, [(cb, makeCoordinationError StatusCode.internal
      "Should not use error polling from service when there is service to client connection.")])
  else
    let s1 := { s with clientPollingForError := true }
    match alookup s1.clusterState task with
    | none =>
      (s1, [(cb, makeCoordinationError StatusCode.invalidArgument
        ("Unexpected task (" ++ getTaskName task
          ++ ") that is not in the cluster polling for errors."))])
    | some ts =>
      if ts.beyondGrace now then
        (s1, [(cb, makeCoordinationError StatusCode.failedPrecondition
          ("Task (" ++ getTaskName task
            ++ ") that has not been registered or has disconnected polling for errors."))])
      else if ts.state = TaskStateEnum.error then
        (s1, [(cb, makeCoordinationError StatusCode.failedPrecondition
          ("Task (" ++ getTaskName task
            ++ ") that is already in error state polling for errors. Current error: "
            ++ ts.status.msg))])
      else if s1.errResponded then (s1, [(cb, s1.errError)])
      else
        let names := if getTaskName task ∈ s1.errPollingTaskNames
          then s1.errPollingTaskNames
          else s1.errPollingTaskNames ++ [getTaskName task]
        ({ s1 with
          errDoneCallbacks := s1.errDoneCallbacks ++ [cb],
          errPollingTaskNames := names }, [])

/-- CheckHeartbeatTimeout: the heartbeat half of the staleness sweep.
The scan walks the task table, failing every connected task whose last
heartbeat is older than the timeout; the stale errors are then propagated
(push mode) or routed once through the polling channel / service stop
(pull mode). -/
def CheckHeartbeatTimeout (cfg : ServiceConfig) (now : Nat)
    (s : ServiceState) : ServiceState × Events :=
  let keys := s.clusterState.map (fun p => p.1)
  let scan := keys.foldl
    (fun (acc : ServiceState × Events × List CoordinatedTask) t =>
      match alookup acc.1.clusterState t with
      | none => acc
      | some ts =>
        if ts.state = TaskStateEnum.connected ∧
            cfg.heartbeatTimeoutMs < (now - ts.lastHeartbeatUs) / 1000 then
          let err := makeCoordinationError StatusCode.unavailable
            ("Task " ++ getTaskName t
              ++ " heartbeat timeout. This indicates that the remote task has failed, got preempted, or crashed unexpectedly.")
          let r := SetTaskError cfg now t err acc.1
          (r.1, acc.2.1 ++ r.2, acc.2.2 ++ [t])
        else acc)
    (s, ([], []))
  let s1 := scan.1
  let stale := scan.2.2
  if stale.isEmpty then (s1, scan.2.1)
  else if ¬ cfg.hasClientCache then
    let err := makeCoordinationError StatusCode.unavailable
      "The following tasks are unhealthy (stopped sending heartbeats)"
    let r := SendErrorPollingResponseOrStopService cfg now err s1
    (r.2.1, scan.2.1 ++ r.2.2)
  else
    let r := stale.foldl
      (fun (acc : ServiceState × Events) t =>
        let pr := PropagateError cfg now t acc.1
        (pr.1, acc.2 ++ pr.2))
      (s1, [])
    (r.1, scan.2.1 ++ r.2)

/-! ### Concrete fixtures used by the witnesses and counterexamples -/

/-- A two-task push-mode configuration. -/
def wCfg : ServiceConfig := ⟨10000, false, true, [], 77, [("j", 2)]⟩

/-- The same cluster in pull mode (no client cache). -/
def wCfgPull : ServiceConfig := ⟨10000, false, false, [], 77, [("j", 2)]⟩

def wT0 : CoordinatedTask := ⟨"j", 0⟩

def wT1 : CoordinatedTask := ⟨"j", 1⟩

def wInit : ServiceState := initState wCfg

/-- An un-passed barrier "x" across both tasks with one queued callback. -/
def wBarrier : BarrierState :=
  { initBarrierState with
    tasksAtBarrier := [(wT0, false), (wT1, false)],
    numPendingTasks := 2,
    doneCallbacks := [7],
    initiatingTask := wT0 }

def wS : ServiceState :=
  { wInit with barriers := [("x", wBarrier)], ongoingBarriers := ["x"] }

/-- A single-task push-mode configuration (its lone task passes a
cluster-wide barrier alone). -/
def c1Cfg : ServiceConfig := ⟨10000, false, true, [], 77, [("j", 1)]⟩

def c1T0 : CoordinatedTask := ⟨"j", 0⟩

def c1T1 : CoordinatedTask := ⟨"j", 1⟩

/-- The state after the single task has passed barrier "x" with OK. -/
def c1S1 : ServiceState :=
  (BarrierAsync c1Cfg 5 "x" 1000 c1T0 [] 1 (initState c1Cfg)).1

/-! ## Pointwise preservation machinery

Three views of the cluster map are tracked across barrier completion:
membership of a given barrier id in the per-task ongoing sets (it can only
shrink), and the `(state, status)` core of each record (untouched by
`ExitBarrier`). -/

/-- The `(state, status)` core of the task records, as a map. -/
def coreMap (cs : List (CoordinatedTask × TaskState)) :
    CoordinatedTask → Option (TaskStateEnum × Status) :=
  fun t => (alookup cs t).map (fun x => (x.state, x.status))

/-- A task-record transformation that does not enlarge the ongoing set. -/
def NonEnlarging (bid : String) (f : TaskState → TaskState) : Prop :=
  ∀ x, bid ∈ (f x).ongoingBarriers → bid ∈ x.ongoingBarriers

/-- Exclusion of a barrier id from every ongoing set of the cluster. -/
def ClusterExcl (bid : String) (cs : List (CoordinatedTask × TaskState)) :
    Prop :=
  ∀ q ∈ cs, bid ∉ q.2.ongoingBarriers

/-- Exclusion of a barrier id from the ongoing sets of the participants. -/
def PartExcl (bid : String) (tasks : List (CoordinatedTask × Bool))
    (cs : List (CoordinatedTask × TaskState)) : Prop :=
  ∀ p ∈ tasks, ∀ ts, alookup cs p.1 = some ts → bid ∉ ts.ongoingBarriers

/-- The invariant carried through the shutdown hook while a barrier is
being passed: its (already updated) record is untouched and no
participant has it in its ongoing set any more. -/
def HookInv (bid : String) (b1 : BarrierState)
    (tasks : List (CoordinatedTask × Bool)) (st : ServiceState) : Prop :=
  alookup st.barriers bid = some b1 ∧ PartExcl bid tasks st.clusterState

/-- The invariant: the record of `bid` is untouched and no task lists
`bid` as ongoing. -/
def GExclInv (bid : String) (b1 : BarrierState) (st : ServiceState) : Prop :=
  alookup st.barriers bid = some b1 ∧ ClusterExcl bid st.clusterState

def c8S : ServiceState :=
  (ResetTask wCfg 0 wT0 (RegisterTask wCfg 0 wT0 7 wInit).2.1).2.1

/-! ### The CONNECTED/ERROR status invariant (C2) -/

/-- P5/I1 for one task record: CONNECTED implies an OK status and ERROR
implies a non-OK status. -/
def TaskOK (ts : TaskState) : Prop :=
  (ts.state = TaskStateEnum.connected → ts.status.isOk) ∧
  (ts.state = TaskStateEnum.error → ¬ ts.status.isOk)

def ClusterOK (cs : List (CoordinatedTask × TaskState)) : Prop :=
  ∀ p ∈ cs, TaskOK p.2

def StatusInv (s : ServiceState) : Prop := ClusterOK s.clusterState

/-- One service transition: the claim's RegisterTask, RecordHeartbeat,
ReportTaskError, ResetTask and staleness-sweep entry points, each at an
arbitrary time with arbitrary arguments.  A ReportTaskError step carries
a non-OK error: this is the amendment (the code itself accepts an OK
`error` argument and then stores it, breaking the invariant). -/
inductive Step (cfg : ServiceConfig) : ServiceState → ServiceState → Prop
  | register (now : Nat) (task : CoordinatedTask) (inc : Nat)
      (u : ServiceState) : Step cfg u (RegisterTask cfg now task inc u).2.1
  | heartbeat (now : Nat) (task : CoordinatedTask) (inc : Nat)
      (u : ServiceState) : Step cfg u (RecordHeartbeat cfg now task inc u).2.1
  | reportError (now : Nat) (task : CoordinatedTask) (err : Status)
      (u : ServiceState) (hne : ¬ err.isOk) :
      Step cfg u (ReportTaskError cfg now task err u).2.1
  | reset (now : Nat) (task : CoordinatedTask) (u : ServiceState) :
      Step cfg u (ResetTask cfg now task u).2.1
  | sweep (now : Nat) (u : ServiceState) :
      Step cfg u (CheckHeartbeatTimeout cfg now u).1

def Reachable (cfg : ServiceConfig) (s : ServiceState) : Prop :=
  Relation.ReflTransGen (Step cfg) (initState cfg) s

/-- A barrier record that has already passed, with its participant map and
callback list cleared. -/
def pBar : BarrierState := { initBarrierState with passed := true }

/-- A service state holding only the passed barrier "x". -/
def pS : ServiceState := { wInit with barriers := [("x", pBar)] }

/-- A state with a pending error poll and one queued poll callback. -/
def c9S : ServiceState :=
  { wInit with clientPollingForError := true, errDoneCallbacks := [3] }

def c9Err : Status := makeCoordinationError StatusCode.aborted "boom"

/-! ## Theorems -/

theorem alookup_aupdate {α β : Type} [DecidableEq α] (k a : α) (f : β → β)
    (l : List (α × β)) :
    alookup (aupdate k f l) a =
      if a = k then (alookup l a).map f else alookup l a := by
  induction l with
  | nil => simp [alookup, aupdate]
  | cons p rest ih =>
    by_cases h1 : p.1 = k <;> by_cases h2 : p.1 = a
    · subst h1; subst h2
      simp [aupdate, alookup]
    · subst h1
      have lhs : alookup (aupdate p.1 f (p :: rest)) a = alookup (aupdate p.1 f rest) a := by
        simp [aupdate, alookup, h2]
      have rhs : alookup (p :: rest) a = alookup rest a := by simp [alookup, h2]
      rw [lhs, rhs]
      exact ih
    · subst h2
      have hak : ¬ p.1 = k := h1
      simp [aupdate, alookup, h1, hak]
    · have lhs : alookup (aupdate k f (p :: rest)) a = alookup (aupdate k f rest) a := by
        simp [aupdate, alookup, h1, h2]
      have rhs : alookup (p :: rest) a = alookup rest a := by simp [alookup, h2]
      rw [lhs, rhs]
      exact ih

/-- A generic fold-preservation lemma used throughout the invariant proofs. -/
theorem foldl_preserve {α β : Type} (P : α → Prop) (f : α → β → α)
    (l : List β) (a : α) (h : ∀ x b, P x → P (f x b)) (ha : P a) :
    P (l.foldl f a) := by
  induction l generalizing a with
  | nil => exact ha
  | cons b rest ih => exact ih (f a b) (h a b ha)

theorem accInv_step (acc : List Char) (c : Char) (h : AccInv acc) :
    AccInv (normStep acc c) := by
  obtain ⟨hnd, hlast⟩ := h
  by_cases hc : c = '/'
  · subst hc
    cases acc with
    | nil => exact ⟨List.chain'_nil, by simp [normStep]⟩
    | cons a rest =>
      by_cases ha : a = '/'
      · have : normStep (a :: rest) '/' = a :: rest := by simp [normStep, ha]
        rw [this]; exact ⟨hnd, hlast⟩
      · have : normStep (a :: rest) '/' = '/' :: a :: rest := by
          simp [normStep, ha]
        rw [this]
        refine ⟨List.chain'_cons.mpr ⟨by simp [ha], hnd⟩, ?_⟩
        rw [List.getLast?_cons_cons]
        exact hlast
  · have : normStep acc c = c :: acc := by simp [normStep, hc]
    rw [this]
    constructor
    · cases acc with
      | nil => simp [NoDoubleSlash]
      | cons a rest =>
        exact List.chain'_cons.mpr ⟨by simp [hc], hnd⟩
    · cases acc with
      | nil => simpa using hc
      | cons a rest => rw [List.getLast?_cons_cons]; exact hlast

theorem accInv_foldl (l : List Char) :
    AccInv (l.foldl normStep []) :=
  foldl_preserve AccInv normStep l [] (fun x b h => accInv_step x b h)
    ⟨List.chain'_nil, by simp⟩

/-- The result of normalization is canonical. -/
theorem normalizeChars_canon (l : List Char) : CanonKey (normalizeChars l) := by
  have hinv := accInv_foldl l
  unfold normalizeChars
  generalize l.foldl normStep [] = r at hinv ⊢
  obtain ⟨hnd, hlast⟩ := hinv
  have trimFacts : NoDoubleSlash (normTrim r) ∧ (normTrim r).getLast? ≠ some '/' ∧
      (normTrim r).head? ≠ some '/' := by
    cases r with
    | nil => simp [normTrim, NoDoubleSlash]
    | cons c rest =>
      by_cases hc : c = '/'
      · subst hc
        have hnt : normTrim ('/' :: rest) = rest := by simp [normTrim]
        rw [hnt]
        refine ⟨(List.chain'_cons'.mp hnd).2, ?_, ?_⟩
        · cases rest with
          | nil => simp
          | cons b bs => rw [List.getLast?_cons_cons] at hlast; exact hlast
        · cases rest with
          | nil => simp
          | cons b bs =>
            have := (List.chain'_cons'.mp hnd).1 b (by simp)
            simp only [List.head?_cons, ne_eq, Option.some.injEq]
            intro hb; exact this ⟨rfl, hb⟩
      · have hnt : normTrim (c :: rest) = c :: rest := by simp [normTrim, hc]
        rw [hnt]
        exact ⟨hnd, hlast, by simpa using hc⟩
  obtain ⟨tnd, tlast, thead⟩ := trimFacts
  refine ⟨?_, ?_, ?_⟩
  · rw [List.head?_reverse]; exact tlast
  · rw [List.getLast?_reverse]; exact thead
  · unfold NoDoubleSlash at tnd ⊢
    rw [List.chain'_reverse]
    exact tnd.imp (fun h => by tauto)

theorem foldl_pushAll : ∀ (r acc : List Char), ChainOK acc.head? r →
    r.foldl normStep acc = r.reverse ++ acc := by
  intro r
  induction r with
  | nil => intro acc _; simp
  | cons c cs ih =>
    intro acc h
    obtain ⟨h1, h2⟩ := h
    have hstep : normStep acc c = c :: acc := by
      unfold normStep
      by_cases hc : c = '/'
      · obtain ⟨a, ha, hane⟩ := h1 hc
        match acc, ha with
        | a :: rest, ha =>
          simp only [List.head?_cons, Option.some.injEq] at ha
          subst ha
          simp [hc, hane]
      · simp [hc]
    rw [List.foldl_cons, hstep, ih (c :: acc) (by simpa using h2)]
    simp

theorem chainOK_of_canon : ∀ (l : List Char) (p : Option Char),
    (l.head? = some '/' → ∃ a, p = some a ∧ a ≠ '/') →
    NoDoubleSlash l → ChainOK p l := by
  intro l
  induction l with
  | nil => intro p _ _; trivial
  | cons c cs ih =>
    intro p h1 h2
    refine ⟨fun hc => h1 (by simp [hc]), ?_⟩
    apply ih
    · intro hcs
      cases cs with
      | nil => simp at hcs
      | cons b bs =>
        simp only [List.head?_cons, Option.some.injEq] at hcs
        refine ⟨c, rfl, fun hc => ?_⟩
        exact (List.chain'_cons.mp h2).1 ⟨hc, hcs⟩
    · exact (List.chain'_cons'.mp h2).2

/-- Normalization is the identity on canonical keys. -/
theorem normalizeChars_of_canon (l : List Char) (h : CanonKey l) :
    normalizeChars l = l := by
  obtain ⟨hhead, hlast, hnd⟩ := h
  unfold normalizeChars
  have hfold : l.foldl normStep [] = l.reverse := by
    rw [foldl_pushAll l [] (chainOK_of_canon l none
      (fun hc => absurd hc hhead) hnd)]
    simp
  rw [hfold]
  have : normTrim l.reverse = l.reverse := by
    match hrev : l.reverse with
    | [] => simp [normTrim]
    | c :: rest =>
      have : l.getLast? = some c := by
        rw [← List.head?_reverse]; rw [hrev]; simp
      have hc : c ≠ '/' := fun hcc => hlast (by rw [this, hcc])
      simp [normTrim, hc]
  rw [this, List.reverse_reverse]

/-- Normalization of character lists is idempotent. -/
theorem normalizeChars_idem (l : List Char) :
    normalizeChars (normalizeChars l) = normalizeChars l :=
  normalizeChars_of_canon _ (normalizeChars_canon l)

/-- Claim C7: NormalizeKey is a pure, idempotent function on strings: for
every string k, NormalizeKey (NormalizeKey k) = NormalizeKey k; it strips
leading and trailing slashes and collapses slash runs, so
NormalizeKey "///a//b/c//" = "a/b/c" and NormalizeKey "" = "". -/
theorem normalizeKey_idem_and_examples :
    (∀ k : String, NormalizeKey (NormalizeKey k) = NormalizeKey k) ∧
    NormalizeKey "///a//b/c//" = "a/b/c" ∧ NormalizeKey "" = "" := by
  refine ⟨fun k => ?_, by decide, by decide⟩
  show (⟨normalizeChars (NormalizeKey k).data⟩ : String) = ⟨normalizeChars k.data⟩
  have : (NormalizeKey k).data = normalizeChars k.data := rfl
  rw [this, normalizeChars_idem]

/-- A string of which `d` is a prefix is not lexicographically below `d`. -/
theorem lex_not_lt_of_isPrefix : ∀ (d s : List Char), d <+: s →
    ¬ List.Lex (· < ·) s d := by
  intro d
  induction d with
  | nil => intro s _ hlex; exact List.Lex.not_nil_right _ _ hlex
  | cons c d2 ih =>
    intro s hp hlex
    obtain ⟨t, ht⟩ := hp
    subst ht
    cases hlex with
    | cons h => exact ih (d2 ++ t) (List.prefix_append _ _) h
    | rel h => exact lt_irrefl _ h

/-- Lexicographic interval property of the prefix relation: a string lying
between `d` and a string with prefix `d` also has prefix `d`. -/
theorem lex_between_isPrefix : ∀ (d y z : List Char),
    ¬ List.Lex (· < ·) y d → ¬ List.Lex (· < ·) z y → d <+: z → d <+: y := by
  intro d
  induction d with
  | nil => intro y _ _ _ _; exact List.nil_prefix
  | cons c d2 ih =>
    intro y z h1 h2 hp
    obtain ⟨t, ht⟩ := hp
    cases y with
    | nil => exact absurd List.Lex.nil h1
    | cons b y2 =>
      rcases lt_trichotomy b c with hbc | hbc | hbc
      · exact absurd (List.Lex.rel hbc) h1
      · subst hbc
        have h1a : ¬ List.Lex (· < ·) y2 d2 := fun hl => h1 (List.Lex.cons hl)
        have h2a : ¬ List.Lex (· < ·) (d2 ++ t) y2 := by
          intro hl
          apply h2
          rw [← ht]
          exact List.Lex.cons hl
        obtain ⟨u, hu⟩ := ih y2 (d2 ++ t) h1a h2a (List.prefix_append _ _)
        exact ⟨u, by rw [← hu]; rfl⟩
      · refine absurd ?_ h2
        rw [← ht]
        exact List.Lex.rel hbc

/-- String-level form of the two order facts used for the sweep. -/
theorem str_not_lt_of_pfx {d s : String} (h : strHasPfx d s) : ¬ s < d := by
  rw [String.lt_iff_toList_lt]
  exact lex_not_lt_of_isPrefix d.toList s.toList h

theorem str_between_pfx {d y z : String} (h1 : ¬ y < d) (h2 : ¬ z < y)
    (h3 : strHasPfx d z) : strHasPfx d y := by
  rw [String.lt_iff_toList_lt] at h1 h2
  exact lex_between_isPrefix d.toList y.toList z.toList h1 h2 h3

/-- Keys in the dropWhile-remainder of the lower-bound scan are all at or
above the bound (sortedness makes the linear scan a true lower bound). -/
theorem dropWhile_lb_ge (dir : String) :
    ∀ (l : List (String × String)),
    l.Pairwise (fun p q => p.1 < q.1) →
    ∀ p ∈ l.dropWhile (fun p => decide (p.1 < dir)), ¬ p.1 < dir := by
  intro l
  induction l with
  | nil => intro _ p hp; simp [List.dropWhile] at hp
  | cons h t ih =>
    intro hs p hp
    by_cases hh : h.1 < dir
    · rw [List.dropWhile_cons_of_pos (by simpa using hh)] at hp
      exact ih (List.Pairwise.sublist (List.sublist_cons_self h t) hs) p hp
    · rw [List.dropWhile_cons_of_neg (by simpa using hh)] at hp
      rcases List.mem_cons.mp hp with rfl | hpt
      · exact hh
      · have hlt : h.1 < p.1 := (List.pairwise_cons.mp hs).1 p hpt
        intro hcon
        exact hh (lt_trans hlt hcon)

/-- After the prefix sweep stops, no later key in the (sorted, at-or-above
the bound) remainder carries the directory prefix. -/
theorem dropWhilePfx_not (dir : String) :
    ∀ (l : List (String × String)), l.Pairwise (fun p q => p.1 < q.1) →
    (∀ p ∈ l, ¬ p.1 < dir) →
    ∀ p ∈ l.dropWhile (fun p => decide (strHasPfx dir p.1)),
      ¬ strHasPfx dir p.1 := by
  intro l
  induction l with
  | nil => intro _ _ p hp; simp [List.dropWhile] at hp
  | cons h t ih =>
    intro hs hge p hp
    by_cases hh : strHasPfx dir h.1
    · rw [List.dropWhile_cons_of_pos (by simpa using hh)] at hp
      exact ih (List.Pairwise.sublist (List.sublist_cons_self h t) hs)
        (fun q hq => hge q (List.mem_cons_of_mem h hq)) p hp
    · rw [List.dropWhile_cons_of_neg (by simpa using hh)] at hp
      rcases List.mem_cons.mp hp with rfl | hpt
      · exact hh
      · have hlt : h.1 < p.1 := (List.pairwise_cons.mp hs).1 p hpt
        intro hcon
        exact hh (str_between_pfx (hge h (List.mem_cons_self h t))
          (not_lt_of_gt hlt) hcon)

/-- Erasing the entry of a key from a strictly sorted association list
removes exactly the pairs carrying that key. -/
theorem aeraseKey_mem (nk : String) :
    ∀ (l : List (String × String)), l.Pairwise (fun p q => p.1 < q.1) →
    ∀ p : String × String, p ∈ aeraseKey nk l ↔ p ∈ l ∧ p.1 ≠ nk := by
  intro l
  induction l with
  | nil => intro _ p; simp [aeraseKey]
  | cons h t ih =>
    intro hs p
    by_cases hh : h.1 = nk
    · rw [show aeraseKey nk (h :: t) = t by simp [aeraseKey, hh]]
      constructor
      · intro hp
        have hlt : h.1 < p.1 := (List.pairwise_cons.mp hs).1 p hp
        exact ⟨List.mem_cons_of_mem h hp, by rw [← hh]; exact ne_of_gt hlt⟩
      · rintro ⟨hp, hne⟩
        rcases List.mem_cons.mp hp with rfl | hpt
        · exact absurd hh hne
        · exact hpt
    · rw [show aeraseKey nk (h :: t) = h :: aeraseKey nk t by
        simp [aeraseKey, hh]]
      rw [List.mem_cons, ih (List.pairwise_cons.mp hs).2 p, List.mem_cons]
      constructor
      · rintro (rfl | ⟨hp, hne⟩)
        · exact ⟨Or.inl rfl, hh⟩
        · exact ⟨Or.inr hp, hne⟩
      · rintro ⟨rfl | hp, hne⟩
        · exact Or.inl rfl
        · exact Or.inr ⟨hp, hne⟩

/-- Membership after the directory sweep (before the final single-key
erase): exactly the pairs without the directory prefix survive. -/
theorem sweep_mem (kv : List (String × String)) (dir : String)
    (hs : kv.Pairwise (fun p q => p.1 < q.1)) :
    ∀ p : String × String,
      p ∈ (kv.takeWhile (fun p => decide (p.1 < dir)) ++
          (kv.dropWhile (fun p => decide (p.1 < dir))).dropWhile
            (fun p => decide (strHasPfx dir p.1))) ↔
      p ∈ kv ∧ ¬ strHasPfx dir p.1 := by
  intro p
  have hrest : (kv.dropWhile (fun p => decide (p.1 < dir))).Pairwise
      (fun p q => p.1 < q.1) := List.Pairwise.sublist (List.dropWhile_sublist _) hs
  have hge := dropWhile_lb_ge dir kv hs
  constructor
  · intro hp
    rcases List.mem_append.mp hp with hf | hk
    · have hlt : p.1 < dir := by
        have := List.mem_takeWhile_imp hf
        simpa using this
      exact ⟨(List.takeWhile_sublist _).subset hf,
        fun hpfx => str_not_lt_of_pfx hpfx hlt⟩
    · refine ⟨(List.dropWhile_sublist _).subset
        ((List.dropWhile_sublist _).subset hk), ?_⟩
      exact dropWhilePfx_not dir _ hrest hge p hk
  · rintro ⟨hp, hnp⟩
    rw [← List.takeWhile_append_dropWhile (fun p => decide (p.1 < dir)) kv]
      at hp
    rcases List.mem_append.mp hp with hf | hr
    · exact List.mem_append.mpr (Or.inl hf)
    · rw [← List.takeWhile_append_dropWhile
        (fun p => decide (strHasPfx dir p.1))
        (kv.dropWhile (fun p => decide (p.1 < dir)))] at hr
      rcases List.mem_append.mp hr with hm | hk
      · have := List.mem_takeWhile_imp hm
        exact absurd (by simpa using this) hnp
      · exact List.mem_append.mpr (Or.inr hk)

/-- Claim C6: for every key k and every (sorted, duplicate-free) KV-store
contents, DeleteKeyValue removes the normalized key itself (if present)
and every key of which `normalized ++ "/"` is a prefix, leaves every other
key untouched (in particular a key like "ab" that merely shares "a" as a
string prefix), and always returns OK, also when nothing matches. -/
theorem deleteKeyValue_spec (kv : List (String × String)) (k : String)
    (hs : kv.Pairwise (fun p q => p.1 < q.1)) :
    (DeleteKeyValue kv k).1 = okStatus ∧
    ∀ p : String × String, p ∈ (DeleteKeyValue kv k).2 ↔
      p ∈ kv ∧ p.1 ≠ NormalizeKey k ∧
        ¬ strHasPfx (NormalizeKey k ++ "/") p.1 := by
  refine ⟨rfl, fun p => ?_⟩
  show p ∈ aeraseKey (NormalizeKey k) _ ↔ _
  have hsub : (kv.takeWhile (fun p => decide (p.1 < NormalizeKey k ++ "/")) ++
      (kv.dropWhile (fun p => decide (p.1 < NormalizeKey k ++ "/"))).dropWhile
        (fun p => decide (strHasPfx (NormalizeKey k ++ "/") p.1))).Sublist kv := by
    conv_rhs => rw [← List.takeWhile_append_dropWhile
      (fun p => decide (p.1 < NormalizeKey k ++ "/")) kv]
    apply List.Sublist.append_left
    conv_rhs => rw [← List.takeWhile_append_dropWhile
      (fun p => decide (strHasPfx (NormalizeKey k ++ "/") p.1))
      (kv.dropWhile (fun p => decide (p.1 < NormalizeKey k ++ "/")))]
    exact List.sublist_append_right _ _
  rw [aeraseKey_mem (NormalizeKey k) _ (List.Pairwise.sublist hsub hs) p,
    sweep_mem kv (NormalizeKey k ++ "/") hs p]
  tauto

/-- Witness for C6 at a concrete store: deleting "a" removes "a" and
"a/b" but keeps "ab". -/
theorem deleteKeyValue_spec_witness :
    ([("a", "1"), ("a/b", "2"), ("ab", "3")] : List (String × String)).Pairwise
      (fun p q => p.1 < q.1) ∧
    ((DeleteKeyValue [("a", "1"), ("a/b", "2"), ("ab", "3")] "a").1 = okStatus ∧
      ∀ p : String × String,
        p ∈ (DeleteKeyValue [("a", "1"), ("a/b", "2"), ("ab", "3")] "a").2 ↔
        p ∈ ([("a", "1"), ("a/b", "2"), ("ab", "3")] : List (String × String)) ∧
          p.1 ≠ NormalizeKey "a" ∧
          ¬ strHasPfx (NormalizeKey "a" ++ "/") p.1) := by
  have hp : ([("a", "1"), ("a/b", "2"), ("ab", "3")] :
      List (String × String)).Pairwise (fun p q => p.1 < q.1) := by
    simp [List.pairwise_cons]
    decide
  exact ⟨hp, deleteKeyValue_spec _ _ hp⟩

/-! ## Basic lemmas about the map helpers -/

theorem alookup_append {α β : Type} [DecidableEq α] (l1 l2 : List (α × β))
    (a : α) :
    alookup (l1 ++ l2) a =
      match alookup l1 a with
      | some v => some v
      | none => alookup l2 a := by
  induction l1 with
  | nil => simp [alookup]
  | cons p rest ih =>
    by_cases h : p.1 = a <;> simp [alookup, h, ih]

theorem ainsertIfAbsent_of_isSome {α β : Type} [DecidableEq α] (k : α) (v : β)
    (l : List (α × β)) (h : (alookup l k).isSome) :
    ainsertIfAbsent k v l = l := by
  unfold ainsertIfAbsent
  obtain ⟨w, hw⟩ := Option.isSome_iff_exists.mp h
  rw [hw]

theorem alookup_ainsertIfAbsent_of_isSome {α β : Type} [DecidableEq α]
    (k a : α) (v : β) (l : List (α × β)) (h : (alookup l a).isSome) :
    alookup (ainsertIfAbsent k v l) a = alookup l a := by
  unfold ainsertIfAbsent
  cases hk : alookup l k with
  | some w => rfl
  | none =>
    rw [alookup_append]
    obtain ⟨w, hw⟩ := Option.isSome_iff_exists.mp h
    simp [hw]

theorem alookup_ainsertIfAbsent_self {α β : Type} [DecidableEq α]
    (k : α) (v : β) (l : List (α × β)) :
    alookup (ainsertIfAbsent k v l) k = some ((alookup l k).getD v) := by
  unfold ainsertIfAbsent
  cases hk : alookup l k with
  | some w => simp [hk]
  | none =>
    rw [alookup_append]
    simp [hk, alookup]

theorem coreMap_aupdate (k : CoordinatedTask) (f : TaskState → TaskState)
    (cs : List (CoordinatedTask × TaskState))
    (hf : ∀ x, (f x).state = x.state ∧ (f x).status = x.status) :
    coreMap (aupdate k f cs) = coreMap cs := by
  funext t
  unfold coreMap
  rw [alookup_aupdate]
  by_cases h : t = k
  · subst h
    cases alookup cs t with
    | none => simp
    | some x => simp [(hf x).1, (hf x).2]
  · simp [h]

theorem clusterExcl_aupdate (bid : String) (k : CoordinatedTask)
    (f : TaskState → TaskState) (cs : List (CoordinatedTask × TaskState))
    (hf : NonEnlarging bid f) (h : ClusterExcl bid cs) :
    ClusterExcl bid (aupdate k f cs) := by
  intro q hq
  unfold aupdate at hq
  obtain ⟨p, hp, hpe⟩ := List.mem_map.mp hq
  by_cases hk : p.1 = k
  · simp only [hk, if_pos rfl] at hpe
    subst hpe
    intro hmem
    exact h p hp (hf p.2 hmem)
  · simp only [hk, if_false] at hpe
    subst hpe
    exact h p hp

theorem partExcl_aupdate (bid : String) (tasks : List (CoordinatedTask × Bool))
    (k : CoordinatedTask) (f : TaskState → TaskState)
    (cs : List (CoordinatedTask × TaskState))
    (hf : NonEnlarging bid f) (h : PartExcl bid tasks cs) :
    PartExcl bid tasks (aupdate k f cs) := by
  intro p hp ts hts
  rw [alookup_aupdate] at hts
  by_cases hk : p.1 = k
  · rw [if_pos hk] at hts
    cases hl : alookup cs p.1 with
    | none => rw [hl] at hts; simp at hts
    | some x =>
      rw [hl] at hts
      simp only [Option.map_some'] at hts
      cases hts
      intro hmem
      exact h p hp x hl (hf x hmem)
  · rw [if_neg hk] at hts
    exact h p hp ts hts

theorem nonEnlarging_filter (bid bid2 : String) :
    NonEnlarging bid (fun ts => { ts with
      ongoingBarriers := ts.ongoingBarriers.filter (fun x => x ≠ bid2) }) := by
  intro x hmem
  simpa using (List.mem_filter.mp hmem).1

theorem nonEnlarging_disconnect (bid : String) (now g : Nat) :
    NonEnlarging bid (TaskState.disconnect now g) := by
  intro x hmem
  simpa [TaskState.disconnect] using hmem

/-! ### exitBarrierAll -/

theorem coreMap_exitBarrierAll (bid : String)
    (tasks : List (CoordinatedTask × Bool))
    (cs : List (CoordinatedTask × TaskState)) :
    coreMap (exitBarrierAll bid tasks cs) = coreMap cs := by
  unfold exitBarrierAll
  refine foldl_preserve (fun cs2 => coreMap cs2 = coreMap cs) _ tasks cs ?_ rfl
  intro x p hx
  exact (coreMap_aupdate p.1
    (fun ts => { ts with
      ongoingBarriers := ts.ongoingBarriers.filter (fun y => y ≠ bid) })
    x (fun t => ⟨rfl, rfl⟩)).trans hx

theorem clusterExcl_exitBarrierAll (bid bid2 : String)
    (tasks : List (CoordinatedTask × Bool))
    (cs : List (CoordinatedTask × TaskState)) (h : ClusterExcl bid cs) :
    ClusterExcl bid (exitBarrierAll bid2 tasks cs) := by
  unfold exitBarrierAll
  refine foldl_preserve (ClusterExcl bid) _ tasks cs ?_ h
  intro x p hx
  exact clusterExcl_aupdate bid p.1 _ x (nonEnlarging_filter bid bid2) hx

theorem partExcl_exitBarrierAll (bid bid2 : String)
    (tasks tasks2 : List (CoordinatedTask × Bool))
    (cs : List (CoordinatedTask × TaskState)) (h : PartExcl bid tasks cs) :
    PartExcl bid tasks (exitBarrierAll bid2 tasks2 cs) := by
  unfold exitBarrierAll
  refine foldl_preserve (PartExcl bid tasks) _ tasks2 cs ?_ h
  intro x p hx
  exact partExcl_aupdate bid tasks p.1 _ x (nonEnlarging_filter bid bid2) hx

/-- Exiting a barrier removes it from every participant's ongoing set. -/
theorem partExcl_of_exitBarrierAll (bid : String)
    (tasks : List (CoordinatedTask × Bool))
    (cs : List (CoordinatedTask × TaskState)) :
    PartExcl bid tasks (exitBarrierAll bid tasks cs) := by
  have hgen : ∀ (todo : List (CoordinatedTask × Bool))
      (cs2 : List (CoordinatedTask × TaskState)),
      PartExcl bid tasks cs2 ∨ True →
      (∀ p ∈ tasks, p ∈ todo ∨
        (∀ ts, alookup cs2 p.1 = some ts → bid ∉ ts.ongoingBarriers)) →
      PartExcl bid tasks (exitBarrierAll bid todo cs2) := by
    intro todo
    induction todo with
    | nil =>
      intro cs2 _ hdone p hp ts hts
      rcases hdone p hp with hfalse | hok
      · exact absurd hfalse (List.not_mem_nil p)
      · exact hok ts hts
    | cons x xs ih =>
      intro cs2 _ hdone
      rw [show exitBarrierAll bid (x :: xs) cs2 =
        exitBarrierAll bid xs (aupdate x.1 (fun ts => { ts with
          ongoingBarriers := ts.ongoingBarriers.filter (fun y => y ≠ bid) })
          cs2) from rfl]
      apply ih _ (Or.inr trivial)
      intro p hp
      rcases hdone p hp with hin | hok
      · rcases List.mem_cons.mp hin with heq | hxs
        · subst heq
          right
          intro ts hts
          rw [alookup_aupdate, if_pos rfl] at hts
          cases hl : alookup cs2 p.1 with
          | none => rw [hl] at hts; simp at hts
          | some y =>
            rw [hl] at hts
            simp only [Option.map_some'] at hts
            cases hts
            intro hmem
            simp at hmem
        · exact Or.inl hxs
      · right
        intro ts hts
        rw [alookup_aupdate] at hts
        by_cases hpx : p.1 = x.1
        · rw [if_pos hpx] at hts
          cases hl : alookup cs2 p.1 with
          | none => rw [hl] at hts; simp at hts
          | some y =>
            rw [hl] at hts
            simp only [Option.map_some'] at hts
            cases hts
            intro hmem
            simp at hmem
        · rw [if_neg hpx] at hts
          exact hok ts hts
  exact hgen tasks cs (Or.inr trivial) (fun p hp => Or.inl hp)

/-- Fold preservation restricted to list members. -/
theorem foldl_preserve_mem {α β : Type} (P : α → Prop) (f : α → β → α) :
    ∀ (l : List β) (a : α), (∀ x b, b ∈ l → P x → P (f x b)) → P a →
    P (l.foldl f a) := by
  intro l
  induction l with
  | nil => intro a _ ha; exact ha
  | cons b rest ih =>
    intro a h ha
    exact ih (f a b) (fun x c hc hx => h x c (List.mem_cons_of_mem b hc) hx)
      (h a b (List.mem_cons_self b rest) ha)

/-! ### PassBarrier characterization -/

theorem passBarrierStart_barriers (bid : String) (r : Status)
    (s : ServiceState) :
    (passBarrierStart bid r s).barriers =
      aupdate bid (fun b => { b with passed := true, result := r })
        s.barriers := by
  simp only [passBarrierStart]
  split <;> rfl

theorem passBarrierStart_flags (bid : String) (r : Status) (s : ServiceState) :
    (passBarrierStart bid r s).shuttingDown = s.shuttingDown ∧
    (passBarrierStart bid r s).ongoingBarriers = s.ongoingBarriers ∧
    (passBarrierStart bid r s).clientPollingForError = s.clientPollingForError ∧
    (passBarrierStart bid r s).errResponded = s.errResponded ∧
    (passBarrierStart bid r s).errError = s.errError ∧
    (passBarrierStart bid r s).errDoneCallbacks = s.errDoneCallbacks := by
  simp only [passBarrierStart]
  split <;> exact ⟨rfl, rfl, rfl, rfl, rfl, rfl⟩

theorem passBarrierStart_cluster (bid : String) (r : Status)
    (s : ServiceState) (b : BarrierState) (hb : alookup s.barriers bid = some b) :
    (passBarrierStart bid r s).clusterState =
      exitBarrierAll bid b.tasksAtBarrier s.clusterState := by
  have hl : alookup
      (aupdate bid (fun x => { x with passed := true, result := r }) s.barriers)
      bid = some { b with passed := true, result := r } := by
    rw [alookup_aupdate, if_pos rfl, hb]
    rfl
  simp only [passBarrierStart]
  rw [hl]

theorem passBarrierFinish_barriers (bid2 : String) (r2 : Status)
    (se : ServiceState × Events) :
    (passBarrierFinish bid2 r2 se).1.barriers =
      aupdate bid2 (fun b => { b with tasksAtBarrier := [], doneCallbacks := [] })
        se.1.barriers := rfl

theorem passBarrierFinish_cluster (bid2 : String) (r2 : Status)
    (se : ServiceState × Events) :
    (passBarrierFinish bid2 r2 se).1.clusterState = se.1.clusterState := rfl

theorem passBarrierFinish_ongoing (bid2 : String) (r2 : Status)
    (se : ServiceState × Events) :
    (passBarrierFinish bid2 r2 se).1.ongoingBarriers =
      se.1.ongoingBarriers.filter (fun x => x ≠ bid2) := rfl

theorem passBarrierFinish_flags (bid2 : String) (r2 : Status)
    (se : ServiceState × Events) :
    (passBarrierFinish bid2 r2 se).1.shuttingDown = se.1.shuttingDown ∧
    (passBarrierFinish bid2 r2 se).1.clientPollingForError =
      se.1.clientPollingForError ∧
    (passBarrierFinish bid2 r2 se).1.errResponded = se.1.errResponded ∧
    (passBarrierFinish bid2 r2 se).1.errError = se.1.errError ∧
    (passBarrierFinish bid2 r2 se).1.errDoneCallbacks = se.1.errDoneCallbacks :=
  ⟨rfl, rfl, rfl, rfl, rfl⟩

theorem passBarrierFinish_events (bid2 : String) (r2 : Status)
    (se : ServiceState × Events) (b : BarrierState)
    (hl : alookup se.1.barriers bid2 = some b) :
    (passBarrierFinish bid2 r2 se).2 =
      se.2 ++ b.doneCallbacks.map (fun c => (c, r2)) := by
  simp only [passBarrierFinish]
  rw [hl]

theorem partExcl_passBarrierStart (bid bid2 : String) (r2 : Status)
    (tasks : List (CoordinatedTask × Bool)) (st : ServiceState)
    (h : PartExcl bid tasks st.clusterState) :
    PartExcl bid tasks (passBarrierStart bid2 r2 st).clusterState := by
  simp only [passBarrierStart]
  split
  · exact h
  · exact partExcl_exitBarrierAll bid bid2 tasks _ _ h

theorem passBarrierNoHook_preserves (bid bid2 : String) (r2 : Status)
    (b1 : BarrierState) (tasks : List (CoordinatedTask × Bool))
    (st : ServiceState) (hne : bid2 ≠ bid)
    (h : HookInv bid b1 tasks st) :
    HookInv bid b1 tasks (passBarrierNoHook bid2 r2 st).1 := by
  obtain ⟨hbar, hexcl⟩ := h
  have hb2 : bid ≠ bid2 := fun he => hne he.symm
  constructor
  · show alookup (passBarrierNoHook bid2 r2 st).1.barriers bid = some b1
    unfold passBarrierNoHook
    rw [passBarrierFinish_barriers, alookup_aupdate, if_neg hb2]
    show alookup (passBarrierStart bid2 r2 st).barriers bid = some b1
    rw [passBarrierStart_barriers, alookup_aupdate, if_neg hb2]
    exact hbar
  · show PartExcl bid tasks (passBarrierNoHook bid2 r2 st).1.clusterState
    unfold passBarrierNoHook
    rw [passBarrierFinish_cluster]
    exact partExcl_passBarrierStart bid bid2 r2 tasks st hexcl

theorem disconnect_noHook_preserves (cfg : ServiceConfig) (now : Nat)
    (task : CoordinatedTask) (bid : String) (b1 : BarrierState)
    (tasks : List (CoordinatedTask × Bool)) (st : ServiceState)
    (htask : ∀ ts, alookup st.clusterState task = some ts →
      bid ∉ ts.ongoingBarriers)
    (h : HookInv bid b1 tasks st) :
    HookInv bid b1 tasks
      (disconnectTaskWith passBarrierNoHook cfg now task st).2.1 := by
  unfold disconnectTaskWith
  by_cases hsd : st.shuttingDown
  · simp only [hsd, if_true]
    exact h
  · simp only [hsd, if_false]
    cases hlt : alookup st.clusterState task with
    | none => exact h
    | some ts =>
      by_cases hdc : ts.state = TaskStateEnum.disconnected
      · simp only [hdc, if_true]
        exact h
      · simp only [hdc, if_false]
        have hobs : ∀ x ∈ ts.ongoingBarriers, x ≠ bid := by
          intro x hx he
          exact htask ts hlt (he ▸ hx)
        have hstep : HookInv bid b1 tasks
            { st with clusterState := aupdate task (TaskState.disconnect now (cfg.heartbeatTimeoutMs * 1000)) st.clusterState } := by
          refine ⟨h.1, ?_⟩
          exact partExcl_aupdate bid tasks task _ st.clusterState
            (nonEnlarging_disconnect bid now (cfg.heartbeatTimeoutMs * 1000))
            h.2
        refine foldl_preserve_mem
          (fun (acc : ServiceState × Events) => HookInv bid b1 tasks acc.1)
          _ ts.ongoingBarriers _ ?_ hstep
        intro acc bid2 hbid2 hacc
        have hne : bid2 ≠ bid := hobs bid2 hbid2
        have hins : HookInv bid b1 tasks
            { acc.1 with barriers := ainsertIfAbsent bid2 initBarrierState acc.1.barriers } := by
          refine ⟨?_, hacc.2⟩
          show alookup (ainsertIfAbsent bid2 initBarrierState acc.1.barriers) bid = some b1
          rw [alookup_ainsertIfAbsent_of_isSome _ _ _ _ (by rw [hacc.1]; rfl)]
          exact hacc.1
        exact passBarrierNoHook_preserves bid bid2 _ b1 tasks _ hne hins

theorem shutdownHook_preserves (cfg : ServiceConfig) (now : Nat)
    (bid : String) (b1 : BarrierState)
    (tasks : List (CoordinatedTask × Bool)) (st : ServiceState)
    (h : HookInv bid b1 tasks st) :
    HookInv bid b1 tasks (shutdownHook cfg now bid tasks st).1 := by
  unfold shutdownHook
  by_cases hsb : bid = shutdownBarrierId cfg
  · rw [if_pos hsb]
    refine foldl_preserve_mem
      (fun (acc : ServiceState × Events) => HookInv bid b1 tasks acc.1)
      _ tasks (st, []) ?_ h
    intro acc p hp hacc
    by_cases hat : p.2
    · simp only [hat, if_true]
      exact disconnect_noHook_preserves cfg now p.1 bid b1 tasks acc.1
        (fun ts hts => hacc.2 p hp ts hts) hacc
    · simp only [hat, if_false]
      exact hacc
  · rw [if_neg hsb]
    exact h

/-- The full characterization of PassBarrier at the barrier being passed:
the record ends passed with the given result, an emptied participant map
and an emptied callback list; the events are the shutdown-hook events
(none unless this is the shutdown barrier) followed by every registered
callback fired once, in order, with the result. -/
theorem PassBarrier_spec (cfg : ServiceConfig) (now : Nat) (bid : String)
    (r : Status) (s : ServiceState) (b : BarrierState)
    (hb : alookup s.barriers bid = some b) :
    alookup (PassBarrier cfg now bid r s).1.barriers bid =
      some { b with passed := true, result := r,
                    tasksAtBarrier := [], doneCallbacks := [] } ∧
    ∃ hookEv : Events,
      (PassBarrier cfg now bid r s).2 =
        hookEv ++ b.doneCallbacks.map (fun c => (c, r)) ∧
      (bid ≠ shutdownBarrierId cfg → hookEv = []) := by
  have hstart_bar : alookup (passBarrierStart bid r s).barriers bid =
      some { b with passed := true, result := r } := by
    rw [passBarrierStart_barriers, alookup_aupdate, if_pos rfl, hb]
    rfl
  have hstart_excl : PartExcl bid b.tasksAtBarrier
      (passBarrierStart bid r s).clusterState := by
    rw [passBarrierStart_cluster bid r s b hb]
    exact partExcl_of_exitBarrierAll bid b.tasksAtBarrier s.clusterState
  have hhook : HookInv bid { b with passed := true, result := r }
      b.tasksAtBarrier
      (shutdownHook cfg now bid b.tasksAtBarrier (passBarrierStart bid r s)).1 :=
    shutdownHook_preserves cfg now bid _ b.tasksAtBarrier _
      ⟨hstart_bar, hstart_excl⟩
  have hpb : PassBarrier cfg now bid r s =
      passBarrierFinish bid r
        (shutdownHook cfg now bid b.tasksAtBarrier (passBarrierStart bid r s)) := by
    unfold PassBarrier
    rw [hb]
  rw [hpb]
  constructor
  · rw [passBarrierFinish_barriers, alookup_aupdate, if_pos rfl, hhook.1]
    rfl
  · refine ⟨(shutdownHook cfg now bid b.tasksAtBarrier (passBarrierStart bid r s)).2,
      ?_, ?_⟩
    · rw [passBarrierFinish_events _ _ _ _ hhook.1]
    · intro hne
      unfold shutdownHook
      rw [if_neg hne]

/-- Passing the guards of BarrierAsync: a call by a task that is listed
(or that uses the default list) on a running service with an existing
record goes to the common path. -/
theorem barrierAsync_to_mainPath (cfg : ServiceConfig) (now : Nat)
    (bid : String) (tm : Nat) (task : CoordinatedTask)
    (ptasks : List CoordinatedTask) (cb : Nat) (s : ServiceState)
    (hsd : s.shuttingDown = false) (hb : (alookup s.barriers bid).isSome)
    (hpart : ptasks = [] ∨ task ∈ ptasks) :
    BarrierAsync cfg now bid tm task ptasks cb s =
      barrierMainPath cfg now bid task ptasks cb s := by
  have hamong : ¬(¬ptasks.isEmpty = true ∧
      (ptasks.any (fun t => decide (getTaskName t = getTaskName task))) = false) := by
    rcases hpart with rfl | hmem
    · intro hcon
      exact hcon.1 rfl
    · intro hcon
      have hany : ptasks.any (fun t => decide (getTaskName t = getTaskName task)) = true :=
        List.any_eq_true.mpr ⟨task, hmem, by simp⟩
      rw [hany] at hcon
      exact absurd hcon.2 (by simp)
  unfold BarrierAsync
  rw [if_neg hamong, if_neg (by simp [hsd]), if_pos hb]

/-- Claim C4: for an existing barrier, a subsequent BarrierAsync call with
a non-empty participant list is accepted iff the list has the cardinality
of the stored participant set and every listed task belongs to it; the
default empty list is accepted iff the stored participant set has the
size of the full declared cluster; a mismatch fails the barrier with
InvalidArgument (every waiting callback and the caller receive it). -/
theorem validateTaskArgs_claim :
    (∀ (args : List CoordinatedTask) (tab : List (CoordinatedTask × Bool))
        (n : Nat),
      ValidateTaskArgs args tab n = true ↔
        ((args = [] ∧ tab.length = n) ∨
          (args ≠ [] ∧ tab.length = args.length ∧
            ∀ t ∈ args, (alookup tab t).isSome))) ∧
    (∀ (cfg : ServiceConfig) (now : Nat) (bid : String) (tm : Nat)
        (task : CoordinatedTask) (ptasks : List CoordinatedTask) (cb : Nat)
        (s : ServiceState) (b : BarrierState),
      s.shuttingDown = false →
      alookup s.barriers bid = some b →
      b.passed = false →
      (ptasks = [] ∨ task ∈ ptasks) →
      ValidateTaskArgs ptasks b.tasksAtBarrier s.clusterState.length = false →
      ∃ b2, alookup (BarrierAsync cfg now bid tm task ptasks cb s).1.barriers
          bid = some b2 ∧
        b2.passed = true ∧
        b2.result = makeCoordinationError StatusCode.invalidArgument
          ("Conflicting tasks specified for the same barrier: " ++ bid) ∧
        ∃ hookEv : Events,
          (BarrierAsync cfg now bid tm task ptasks cb s).2 =
            hookEv ++ (b.doneCallbacks ++ [cb]).map (fun c =>
              (c, makeCoordinationError StatusCode.invalidArgument
                ("Conflicting tasks specified for the same barrier: " ++ bid))) ∧
          (bid ≠ shutdownBarrierId cfg → hookEv = [])) := by
  constructor
  · intro args tab n
    unfold ValidateTaskArgs
    by_cases he : args.isEmpty
    · have hnil : args = [] := List.isEmpty_iff.mp he
      subst hnil
      simp
    · have hne : args ≠ [] := fun h => he (by simp [h])
      rw [if_neg he]
      by_cases hl : tab.length = args.length
      · rw [if_neg (fun h => h hl), List.all_eq_true]
        constructor
        · intro hall
          exact Or.inr ⟨hne, hl, fun t ht => by simpa using hall t ht⟩
        · rintro (⟨hargs, _⟩ | ⟨_, _, hall⟩)
          · exact absurd hargs hne
          · intro t ht
            simpa using hall t ht
      · rw [if_pos hl]
        simp only [Bool.false_eq_true, false_iff]
        rintro (⟨hargs, _⟩ | ⟨_, hlen, _⟩)
        · exact hne hargs
        · exact hl hlen
  · intro cfg now bid tm task ptasks cb s b hsd hb hp hpart hval
    rw [barrierAsync_to_mainPath cfg now bid tm task ptasks cb s hsd
      (by rw [hb]; rfl) hpart]
    unfold barrierMainPath
    rw [hb]
    simp only [hp, Bool.false_eq_true, if_false, hval]
    have hb1 : alookup ({ s with barriers := aupdate bid (fun x => { x with doneCallbacks := x.doneCallbacks ++ [cb] }) s.barriers } : ServiceState).barriers bid =
        some { b with doneCallbacks := b.doneCallbacks ++ [cb] } := by
      show alookup (aupdate bid
        (fun x => { x with doneCallbacks := x.doneCallbacks ++ [cb] })
        s.barriers) bid = _
      rw [alookup_aupdate, if_pos rfl, hb]
      rfl
    obtain ⟨hrec, hookEv, hev, hne⟩ := PassBarrier_spec cfg now bid
      (makeCoordinationError StatusCode.invalidArgument
        ("Conflicting tasks specified for the same barrier: " ++ bid))
      _ _ hb1
    refine ⟨_, hrec, rfl, rfl, hookEv, ?_, hne⟩
    exact hev

/-- Reduction of CancelBarrier on a running service, once the record
exists (try_emplace may have just created it). -/
theorem cancelBarrier_reduce (cfg : ServiceConfig) (now : Nat) (bid : String)
    (task : CoordinatedTask) (s : ServiceState) (b2 : BarrierState)
    (hsd : s.shuttingDown = false)
    (hb : alookup (ainsertIfAbsent bid initBarrierState s.barriers) bid = some b2) :
    CancelBarrier cfg now bid task s =
      (if b2.passed = true then
        (makeCoordinationError StatusCode.failedPrecondition
          ("Barrier (" ++ bid ++ ") has already been passed with status code: "
            ++ toString (statusCodeNum b2.result.code)),
          ({ s with barriers := ainsertIfAbsent bid initBarrierState s.barriers } : ServiceState),
          ([] : Events))
      else
        (okStatus,
          (PassBarrier cfg now bid
            (makeCoordinationError StatusCode.cancelled
              ("Barrier (" ++ bid ++ ") is cancelled by task: " ++ getTaskName task))
            { s with barriers := ainsertIfAbsent bid initBarrierState s.barriers }).1,
          (PassBarrier cfg now bid
            (makeCoordinationError StatusCode.cancelled
              ("Barrier (" ++ bid ++ ") is cancelled by task: " ++ getTaskName task))
            { s with barriers := ainsertIfAbsent bid initBarrierState s.barriers }).2)) := by
  unfold CancelBarrier
  rw [if_neg (by simp [hsd])]
  simp only []
  rw [show alookup ({ s with barriers := ainsertIfAbsent bid initBarrierState s.barriers } : ServiceState).barriers bid = some b2 from hb]

/-- Claim C5: CancelBarrier returns Internal when the service is shutting
down; FailedPrecondition (leaving the state untouched, firing nothing)
when the barrier has already passed; and otherwise returns OK after
passing the barrier with a Cancelled status naming the cancelling task,
every waiting callback receiving that Cancelled status. -/
theorem cancelBarrier_claim (cfg : ServiceConfig) (now : Nat) (bid : String)
    (task : CoordinatedTask) (s : ServiceState) :
    (s.shuttingDown = true →
      CancelBarrier cfg now bid task s =
        (makeCoordinationError StatusCode.internal
          "Coordination service has stopped. CancelBarrier() failed.", s, [])) ∧
    (∀ b, s.shuttingDown = false → alookup s.barriers bid = some b →
      b.passed = true →
      CancelBarrier cfg now bid task s =
        (makeCoordinationError StatusCode.failedPrecondition
          ("Barrier (" ++ bid ++ ") has already been passed with status code: "
            ++ toString (statusCodeNum b.result.code)), s, [])) ∧
    (∀ b, s.shuttingDown = false →
      alookup (ainsertIfAbsent bid initBarrierState s.barriers) bid = some b →
      b.passed = false →
      (CancelBarrier cfg now bid task s).1 = okStatus ∧
      alookup (CancelBarrier cfg now bid task s).2.1.barriers bid =
        some { b with
          passed := true,
          result := makeCoordinationError StatusCode.cancelled ("Barrier (" ++ bid ++ ") is cancelled by task: " ++ getTaskName task),
          tasksAtBarrier := [],
          doneCallbacks := [] } ∧
      ∃ hookEv : Events,
        (CancelBarrier cfg now bid task s).2.2 =
          hookEv ++ b.doneCallbacks.map (fun c =>
            (c, makeCoordinationError StatusCode.cancelled
              ("Barrier (" ++ bid ++ ") is cancelled by task: "
                ++ getTaskName task))) ∧
        (bid ≠ shutdownBarrierId cfg → hookEv = [])) := by
  refine ⟨?_, ?_, ?_⟩
  · intro hsd
    unfold CancelBarrier
    rw [if_pos hsd]
  · intro b hsd hb hp
    have hins : ainsertIfAbsent bid initBarrierState s.barriers = s.barriers :=
      ainsertIfAbsent_of_isSome bid initBarrierState s.barriers (by rw [hb]; rfl)
    have hb2 : alookup (ainsertIfAbsent bid initBarrierState s.barriers) bid = some b := by
      rw [hins]
      exact hb
    rw [cancelBarrier_reduce cfg now bid task s b hsd hb2, if_pos hp, hins]
  · intro b hsd hb hp
    have hred := cancelBarrier_reduce cfg now bid task s b hsd hb
    rw [if_neg (by simp [hp])] at hred
    have hb1 : alookup ({ s with barriers := ainsertIfAbsent bid initBarrierState s.barriers } : ServiceState).barriers bid = some b := hb
    obtain ⟨hrec, hookEv, hev, hne⟩ := PassBarrier_spec cfg now bid
      (makeCoordinationError StatusCode.cancelled
        ("Barrier (" ++ bid ++ ") is cancelled by task: " ++ getTaskName task))
      _ b hb1
    rw [hred]
    exact ⟨rfl, hrec, hookEv, hev, hne⟩

/-- Reduction of the common path of BarrierAsync once the record is in
hand. -/
theorem barrierMainPath_reduce (cfg : ServiceConfig) (now : Nat)
    (bid : String) (task : CoordinatedTask)
    (ptasks : List CoordinatedTask) (cb : Nat) (s : ServiceState)
    (b : BarrierState) (hb : alookup s.barriers bid = some b) :
    barrierMainPath cfg now bid task ptasks cb s =
      (if b.passed then
        if bid = shutdownBarrierId cfg then
          let dr := DisconnectTask cfg now task s
          if ¬ dr.1.isOk then (dr.2.1, dr.2.2 ++ [(cb, dr.1)])
          else
            let res := match alookup dr.2.1.barriers bid with
              | some b2 => b2.result
              | none => b.result
            (dr.2.1, dr.2.2 ++ [(cb, res)])
        else (s, [(cb, b.result)])
      else
        let bs1 := aupdate bid
          (fun x => { x with doneCallbacks := x.doneCallbacks ++ [cb] })
          s.barriers
        let s1 := { s with barriers := bs1 }
        if ValidateTaskArgs ptasks b.tasksAtBarrier s.clusterState.length then
          let arrived := match alookup b.tasksAtBarrier task with
            | some v => v
            | none => false
          if arrived then (s1, [])
          else
            let bs2 := aupdate bid
              (fun x => { x with
                tasksAtBarrier := aset task true x.tasksAtBarrier,
                numPendingTasks := x.numPendingTasks - 1 })
              s1.barriers
            let s2 := { s1 with barriers := bs2 }
            if b.numPendingTasks - 1 = 0 then
              PassBarrier cfg now bid okStatus s2
            else (s2, [])
        else
          let err := makeCoordinationError StatusCode.invalidArgument
            ("Conflicting tasks specified for the same barrier: " ++ bid)
          PassBarrier cfg now bid err s1) := by
  unfold barrierMainPath
  rw [hb]

/-- Claim C3: for an un-passed barrier, a BarrierAsync call by a listed
participant that has not arrived yet marks it arrived and decrements the
pending count (everything else untouched, nothing fired); a repeated call
by an already-arrived participant only queues its callback (no error, no
other change); and when the pending count reaches zero the barrier passes
with OK and every registered callback is fired with that OK result. -/
theorem barrierAsync_arrival_claim (cfg : ServiceConfig) (now : Nat)
    (bid : String) (tm : Nat) (task : CoordinatedTask)
    (ptasks : List CoordinatedTask) (cb : Nat) (s : ServiceState)
    (b : BarrierState) (arr : Bool)
    (hsd : s.shuttingDown = false)
    (hb : alookup s.barriers bid = some b)
    (hp : b.passed = false)
    (hpart : ptasks = [] ∨ task ∈ ptasks)
    (hval : ValidateTaskArgs ptasks b.tasksAtBarrier s.clusterState.length = true)
    (harr : alookup b.tasksAtBarrier task = some arr) :
    (arr = true →
      alookup (BarrierAsync cfg now bid tm task ptasks cb s).1.barriers bid =
        some { b with doneCallbacks := b.doneCallbacks ++ [cb] } ∧
      (BarrierAsync cfg now bid tm task ptasks cb s).1.clusterState =
        s.clusterState ∧
      (BarrierAsync cfg now bid tm task ptasks cb s).1.ongoingBarriers =
        s.ongoingBarriers ∧
      (BarrierAsync cfg now bid tm task ptasks cb s).2 = []) ∧
    (arr = false → b.numPendingTasks ≠ 1 →
      alookup (BarrierAsync cfg now bid tm task ptasks cb s).1.barriers bid =
        some { b with
          doneCallbacks := b.doneCallbacks ++ [cb],
          tasksAtBarrier := aset task true b.tasksAtBarrier,
          numPendingTasks := b.numPendingTasks - 1 } ∧
      (BarrierAsync cfg now bid tm task ptasks cb s).1.clusterState =
        s.clusterState ∧
      (BarrierAsync cfg now bid tm task ptasks cb s).2 = []) ∧
    (arr = false → b.numPendingTasks = 1 →
      ∃ b3, alookup (BarrierAsync cfg now bid tm task ptasks cb s).1.barriers
          bid = some b3 ∧
        b3.passed = true ∧ b3.result = okStatus ∧
        b3.tasksAtBarrier = [] ∧ b3.doneCallbacks = [] ∧
        ∃ hookEv : Events,
          (BarrierAsync cfg now bid tm task ptasks cb s).2 =
            hookEv ++ (b.doneCallbacks ++ [cb]).map (fun c => (c, okStatus)) ∧
          (bid ≠ shutdownBarrierId cfg → hookEv = [])) := by
  rw [barrierAsync_to_mainPath cfg now bid tm task ptasks cb s hsd
    (by rw [hb]; rfl) hpart]
  rw [barrierMainPath_reduce cfg now bid task ptasks cb s b hb]
  rw [hp, if_neg Bool.false_ne_true, if_pos hval, harr]
  refine ⟨?_, ?_, ?_⟩
  · intro ha
    subst ha
    simp only [if_pos rfl]
    refine ⟨?_, rfl, rfl, rfl⟩
    show alookup (aupdate bid
      (fun x => { x with doneCallbacks := x.doneCallbacks ++ [cb] })
      s.barriers) bid = _
    rw [alookup_aupdate, if_pos rfl, hb, Option.map_some', hp]
  · intro ha hnp
    subst ha
    simp only [Bool.false_eq_true, if_false]
    rw [if_neg (show ¬ (b.numPendingTasks - 1 = 0) by omega)]
    refine ⟨?_, rfl, rfl⟩
    show alookup (aupdate bid
      (fun x => { x with
        tasksAtBarrier := aset task true x.tasksAtBarrier,
        numPendingTasks := x.numPendingTasks - 1 })
      (aupdate bid
        (fun x => { x with doneCallbacks := x.doneCallbacks ++ [cb] })
        s.barriers)) bid = _
    rw [alookup_aupdate, if_pos rfl, alookup_aupdate, if_pos rfl, hb,
      Option.map_some', Option.map_some', hp]
  · intro ha hnp
    subst ha
    simp only [Bool.false_eq_true, if_false]
    rw [if_pos (show b.numPendingTasks - 1 = 0 by omega)]
    have hb2 : alookup ({ s with barriers := aupdate bid (fun x => { x with tasksAtBarrier := aset task true x.tasksAtBarrier, numPendingTasks := x.numPendingTasks - 1 }) (aupdate bid (fun x => { x with doneCallbacks := x.doneCallbacks ++ [cb] }) s.barriers) } : ServiceState).barriers bid =
        some { b with
          doneCallbacks := b.doneCallbacks ++ [cb],
          tasksAtBarrier := aset task true b.tasksAtBarrier,
          numPendingTasks := b.numPendingTasks - 1 } := by
      show alookup (aupdate bid
        (fun x => { x with
          tasksAtBarrier := aset task true x.tasksAtBarrier,
          numPendingTasks := x.numPendingTasks - 1 })
        (aupdate bid
          (fun x => { x with doneCallbacks := x.doneCallbacks ++ [cb] })
          s.barriers)) bid = _
      rw [alookup_aupdate, if_pos rfl, alookup_aupdate, if_pos rfl, hb,
        Option.map_some', Option.map_some', hp]
    obtain ⟨hrec, hookEv, hev, hne⟩ :=
      PassBarrier_spec cfg now bid okStatus _ _ hb2
    exact ⟨_, hrec, rfl, rfl, rfl, rfl, hookEv, hev, hne⟩

/-! ### Stability of a passed barrier (C1 machinery)

While no task has the barrier id in its ongoing set, no entry point that
passes *other* barriers can touch the barrier's record: the inner
PassBarrier calls of DisconnectTask always target ids drawn from some
task's ongoing set. -/

theorem alookup_mem {α β : Type} [DecidableEq α] (l : List (α × β)) (a : α)
    (v : β) (h : alookup l a = some v) : (a, v) ∈ l := by
  induction l with
  | nil => simp [alookup] at h
  | cons p rest ih =>
    unfold alookup at h
    by_cases hp : p.1 = a
    · rw [if_pos hp] at h
      cases h
      subst hp
      exact List.mem_cons_self p rest
    · rw [if_neg hp] at h
      exact List.mem_cons_of_mem p (ih h)

theorem clusterExcl_passBarrierStart (bid bid2 : String) (r2 : Status)
    (st : ServiceState) (h : ClusterExcl bid st.clusterState) :
    ClusterExcl bid (passBarrierStart bid2 r2 st).clusterState := by
  simp only [passBarrierStart]
  split
  · exact h
  · exact clusterExcl_exitBarrierAll bid bid2 _ _ h

theorem passBarrierNoHook_preservesG (bid bid2 : String) (r2 : Status)
    (b1 : BarrierState) (st : ServiceState) (hne : bid2 ≠ bid)
    (h : GExclInv bid b1 st) : GExclInv bid b1 (passBarrierNoHook bid2 r2 st).1 := by
  obtain ⟨hbar, hexcl⟩ := h
  have hb2 : bid ≠ bid2 := fun he => hne he.symm
  constructor
  · show alookup (passBarrierNoHook bid2 r2 st).1.barriers bid = some b1
    unfold passBarrierNoHook
    rw [passBarrierFinish_barriers, alookup_aupdate, if_neg hb2]
    show alookup (passBarrierStart bid2 r2 st).barriers bid = some b1
    rw [passBarrierStart_barriers, alookup_aupdate, if_neg hb2]
    exact hbar
  · show ClusterExcl bid (passBarrierNoHook bid2 r2 st).1.clusterState
    unfold passBarrierNoHook
    rw [passBarrierFinish_cluster]
    exact clusterExcl_passBarrierStart bid bid2 r2 st hexcl

theorem disconnect_noHook_preservesG (cfg : ServiceConfig) (now : Nat)
    (task : CoordinatedTask) (bid : String) (b1 : BarrierState)
    (st : ServiceState) (h : GExclInv bid b1 st) :
    GExclInv bid b1 (disconnectTaskWith passBarrierNoHook cfg now task st).2.1 := by
  unfold disconnectTaskWith
  by_cases hsd : st.shuttingDown
  · simp only [hsd, if_true]
    exact h
  · simp only [hsd, if_false]
    cases hlt : alookup st.clusterState task with
    | none => exact h
    | some ts =>
      by_cases hdc : ts.state = TaskStateEnum.disconnected
      · simp only [hdc, if_true]
        exact h
      · simp only [hdc, if_false]
        have hobs : ∀ x ∈ ts.ongoingBarriers, x ≠ bid := by
          intro x hx he
          exact h.2 (task, ts) (alookup_mem st.clusterState task ts hlt) (he ▸ hx)
        have hstep : GExclInv bid b1
            { st with clusterState := aupdate task (TaskState.disconnect now (cfg.heartbeatTimeoutMs * 1000)) st.clusterState } := by
          refine ⟨h.1, ?_⟩
          exact clusterExcl_aupdate bid task _ st.clusterState
            (nonEnlarging_disconnect bid now (cfg.heartbeatTimeoutMs * 1000)) h.2
        refine foldl_preserve_mem
          (fun (acc : ServiceState × Events) => GExclInv bid b1 acc.1)
          _ ts.ongoingBarriers _ ?_ hstep
        intro acc bid2 hbid2 hacc
        have hne : bid2 ≠ bid := hobs bid2 hbid2
        have hins : GExclInv bid b1
            { acc.1 with barriers := ainsertIfAbsent bid2 initBarrierState acc.1.barriers } := by
          refine ⟨?_, hacc.2⟩
          show alookup (ainsertIfAbsent bid2 initBarrierState acc.1.barriers) bid = some b1
          rw [alookup_ainsertIfAbsent_of_isSome _ _ _ _ (by rw [hacc.1]; rfl)]
          exact hacc.1
        exact passBarrierNoHook_preservesG bid bid2 _ b1 _ hne hins

theorem shutdownHook_preservesG (cfg : ServiceConfig) (now : Nat)
    (bid2 bid : String) (b1 : BarrierState)
    (tasks2 : List (CoordinatedTask × Bool)) (st : ServiceState)
    (h : GExclInv bid b1 st) :
    GExclInv bid b1 (shutdownHook cfg now bid2 tasks2 st).1 := by
  unfold shutdownHook
  by_cases hsb : bid2 = shutdownBarrierId cfg
  · rw [if_pos hsb]
    refine foldl_preserve
      (fun (acc : ServiceState × Events) => GExclInv bid b1 acc.1)
      _ tasks2 (st, []) ?_ h
    intro acc p hacc
    by_cases hat : p.2
    · simp only [hat, if_true]
      exact disconnect_noHook_preservesG cfg now p.1 bid b1 acc.1 hacc
    · simp only [hat, if_false]
      exact hacc
  · rw [if_neg hsb]
    exact h

theorem passBarrier_ne_preservesG (cfg : ServiceConfig) (now : Nat)
    (bid2 bid : String) (r2 : Status) (b1 : BarrierState) (st : ServiceState)
    (hne : bid2 ≠ bid) (h : GExclInv bid b1 st) :
    GExclInv bid b1 (PassBarrier cfg now bid2 r2 st).1 := by
  have hb2 : bid ≠ bid2 := fun he => hne he.symm
  have hstart : GExclInv bid b1 (passBarrierStart bid2 r2 st) := by
    constructor
    · rw [passBarrierStart_barriers, alookup_aupdate, if_neg hb2]
      exact h.1
    · exact clusterExcl_passBarrierStart bid bid2 r2 st h.2
  have hhook := shutdownHook_preservesG cfg now bid2 bid b1
    (match alookup st.barriers bid2 with
      | some b => b.tasksAtBarrier
      | none => []) (passBarrierStart bid2 r2 st) hstart
  constructor
  · show alookup (PassBarrier cfg now bid2 r2 st).1.barriers bid = some b1
    unfold PassBarrier
    rw [passBarrierFinish_barriers, alookup_aupdate, if_neg hb2]
    exact hhook.1
  · show ClusterExcl bid (PassBarrier cfg now bid2 r2 st).1.clusterState
    unfold PassBarrier
    rw [passBarrierFinish_cluster]
    exact hhook.2

theorem disconnectTask_preservesG (cfg : ServiceConfig) (now : Nat)
    (task : CoordinatedTask) (bid : String) (b1 : BarrierState)
    (st : ServiceState) (h : GExclInv bid b1 st) :
    GExclInv bid b1 (DisconnectTask cfg now task st).2.1 := by
  unfold DisconnectTask disconnectTaskWith
  by_cases hsd : st.shuttingDown
  · simp only [hsd, if_true]
    exact h
  · simp only [hsd, if_false]
    cases hlt : alookup st.clusterState task with
    | none => exact h
    | some ts =>
      by_cases hdc : ts.state = TaskStateEnum.disconnected
      · simp only [hdc, if_true]
        exact h
      · simp only [hdc, if_false]
        have hobs : ∀ x ∈ ts.ongoingBarriers, x ≠ bid := by
          intro x hx he
          exact h.2 (task, ts) (alookup_mem st.clusterState task ts hlt) (he ▸ hx)
        have hstep : GExclInv bid b1
            { st with clusterState := aupdate task (TaskState.disconnect now (cfg.heartbeatTimeoutMs * 1000)) st.clusterState } := by
          refine ⟨h.1, ?_⟩
          exact clusterExcl_aupdate bid task _ st.clusterState
            (nonEnlarging_disconnect bid now (cfg.heartbeatTimeoutMs * 1000)) h.2
        refine foldl_preserve_mem
          (fun (acc : ServiceState × Events) => GExclInv bid b1 acc.1)
          _ ts.ongoingBarriers _ ?_ hstep
        intro acc bid2 hbid2 hacc
        have hne : bid2 ≠ bid := hobs bid2 hbid2
        have hins : GExclInv bid b1
            { acc.1 with barriers := ainsertIfAbsent bid2 initBarrierState acc.1.barriers } := by
          refine ⟨?_, hacc.2⟩
          show alookup (ainsertIfAbsent bid2 initBarrierState acc.1.barriers) bid = some b1
          rw [alookup_ainsertIfAbsent_of_isSome _ _ _ _ (by rw [hacc.1]; rfl)]
          exact hacc.1
        exact passBarrier_ne_preservesG cfg now bid2 bid _ b1 _ hne hins

theorem sendErrorPollingResponse_barriers (e : Status) (st : ServiceState) :
    (SendErrorPollingResponse e st).1.barriers = st.barriers := by
  unfold SendErrorPollingResponse
  by_cases hr : st.errResponded
  · rw [if_pos hr]
  · rw [if_neg hr]

/-- Claim C1 is false as stated: after barrier "x" has passed with OK, a
later BarrierAsync call on the same id by a non-participating task (here
with explicit participant list [j:1] and caller j:0) re-enters PassBarrier
and overwrites the stored result with an InvalidArgument error. -/
theorem passedBarrier_result_overwritten :
    (alookup c1S1.barriers "x").map (fun b => (b.passed, b.result.code)) =
      some (true, StatusCode.ok) ∧
    (alookup (BarrierAsync c1Cfg 6 "x" 1000 c1T0 [c1T1] 2 c1S1).1.barriers
        "x").map (fun b => (b.passed, b.result.code)) =
      some (true, StatusCode.invalidArgument) :=
  ⟨by decide, by decide⟩

/-- Claim C1 (amended): once a barrier has passed — its participant map
and callback list cleared and no task listing it as ongoing — every later
CancelBarrier leaves the whole state unchanged and fires nothing; every
later BarrierAsync keeps the record passed with empty participant map and
empty callback list (so no callback registered on it can ever fire again),
and keeps the stored result unchanged whenever the caller uses the default
list or is listed — a non-participating caller with an explicit list is
the one exception forced by the counterexample, overwriting the result
with InvalidArgument; Stop simply deletes all barrier records. -/
theorem passedBarrier_stability (cfg : ServiceConfig) (bid : String)
    (s : ServiceState) (b : BarrierState)
    (hb : alookup s.barriers bid = some b) (hp : b.passed = true)
    (ht : b.tasksAtBarrier = []) (hc : b.doneCallbacks = [])
    (hno : ClusterExcl bid s.clusterState) :
    (∀ (now2 : Nat) (task2 : CoordinatedTask),
      (CancelBarrier cfg now2 bid task2 s).2.1 = s ∧
      (CancelBarrier cfg now2 bid task2 s).2.2 = []) ∧
    (∀ (now2 tm : Nat) (task2 : CoordinatedTask)
        (ptasks : List CoordinatedTask) (cb : Nat),
      ∃ b2, alookup (BarrierAsync cfg now2 bid tm task2 ptasks cb s).1.barriers
          bid = some b2 ∧
        b2.passed = true ∧ b2.tasksAtBarrier = [] ∧ b2.doneCallbacks = [] ∧
        ((ptasks = [] ∨ task2 ∈ ptasks) → b2.result = b.result)) ∧
    (∀ now2 : Nat, (Stop cfg now2 s).1.barriers = []) := by
  refine ⟨?_, ?_, ?_⟩
  · intro now2 task2
    cases hsd : s.shuttingDown with
    | true =>
      have h := (cancelBarrier_claim cfg now2 bid task2 s).1 hsd
      rw [h]
      exact ⟨rfl, rfl⟩
    | false =>
      have h := (cancelBarrier_claim cfg now2 bid task2 s).2.1 b hsd hb hp
      rw [h]
      exact ⟨rfl, rfl⟩
  · intro now2 tm task2 ptasks cb
    by_cases hguard : ¬ ptasks.isEmpty = true ∧
        (ptasks.any (fun t => decide (getTaskName t = getTaskName task2))) = false
    · have hvac : ¬ (ptasks = [] ∨ task2 ∈ ptasks) := by
        rintro (rfl | hmem)
        · exact hguard.1 rfl
        · have hany : ptasks.any
              (fun t => decide (getTaskName t = getTaskName task2)) = true :=
            List.any_eq_true.mpr ⟨task2, hmem, by simp⟩
          rw [hany] at hguard
          exact absurd hguard.2 (by simp)
      unfold BarrierAsync
      rw [if_pos hguard]
      by_cases hsd : s.shuttingDown = true
      · rw [if_pos hsd]
        exact ⟨b, hb, hp, ht, hc, fun _ => rfl⟩
      · rw [if_neg hsd]
        simp only []
        rw [ainsertIfAbsent_of_isSome bid initBarrierState s.barriers
          (by rw [hb]; rfl)]
        obtain ⟨hrec, _⟩ := PassBarrier_spec cfg now2 bid
          (makeCoordinationError StatusCode.invalidArgument
            ("A non-participating task (" ++ getTaskName task2
              ++ ") called the barrier: " ++ bid))
          { s with barriers := s.barriers } b hb
        refine ⟨_, hrec, rfl, rfl, rfl, fun hcon => absurd hcon hvac⟩
    · unfold BarrierAsync
      rw [if_neg hguard]
      by_cases hsd : s.shuttingDown = true
      · rw [if_pos hsd]
        exact ⟨b, hb, hp, ht, hc, fun _ => rfl⟩
      · rw [if_neg hsd, if_pos (by rw [hb]; rfl)]
        rw [barrierMainPath_reduce cfg now2 bid task2 ptasks cb s b hb]
        rw [hp, if_pos rfl]
        by_cases hsb : bid = shutdownBarrierId cfg
        · rw [if_pos hsb]
          simp only []
          have hG : GExclInv bid b
              (DisconnectTask cfg now2 task2 s).2.1 :=
            disconnectTask_preservesG cfg now2 task2 bid b s ⟨hb, hno⟩
          by_cases hok : (DisconnectTask cfg now2 task2 s).1.isOk
          · rw [if_neg (by simpa using hok)]
            exact ⟨b, hG.1, hp, ht, hc, fun _ => rfl⟩
          · rw [if_pos (by simpa using hok)]
            exact ⟨b, hG.1, hp, ht, hc, fun _ => rfl⟩
        · rw [if_neg hsb]
          exact ⟨b, hb, hp, ht, hc, fun _ => rfl⟩
  · intro now2
    unfold Stop
    simp only []
    split
    · rw [sendErrorPollingResponse_barriers]
    · rfl

/-! ### Flag preservation through barrier completion -/

theorem passBarrierNoHook_shuttingDown (bid : String) (r : Status)
    (st : ServiceState) :
    (passBarrierNoHook bid r st).1.shuttingDown = st.shuttingDown := by
  unfold passBarrierNoHook
  rw [(passBarrierFinish_flags bid r _).1]
  exact (passBarrierStart_flags bid r st).1

theorem disconnectTaskWith_shuttingDown
    (pass : String → Status → ServiceState → ServiceState × Events)
    (hpass : ∀ bid r st, (pass bid r st).1.shuttingDown = st.shuttingDown)
    (cfg : ServiceConfig) (now : Nat) (task : CoordinatedTask)
    (st : ServiceState) :
    (disconnectTaskWith pass cfg now task st).2.1.shuttingDown =
      st.shuttingDown := by
  unfold disconnectTaskWith
  split
  · rfl
  · split
    · rfl
    · split
      · rfl
      · refine foldl_preserve
          (fun (acc : ServiceState × Events) =>
            acc.1.shuttingDown = st.shuttingDown) _ _ _ ?_ rfl
        intro acc bid2 hacc
        rw [hpass]
        exact hacc

theorem shutdownHook_shuttingDown (cfg : ServiceConfig) (now : Nat)
    (bid : String) (tasks : List (CoordinatedTask × Bool)) (st : ServiceState) :
    (shutdownHook cfg now bid tasks st).1.shuttingDown = st.shuttingDown := by
  unfold shutdownHook
  split
  · refine foldl_preserve
      (fun (acc : ServiceState × Events) =>
        acc.1.shuttingDown = st.shuttingDown) _ _ _ ?_ rfl
    intro acc p hacc
    split
    · rw [disconnectTaskWith_shuttingDown passBarrierNoHook
        passBarrierNoHook_shuttingDown]
      exact hacc
    · exact hacc
  · rfl

theorem passBarrier_shuttingDown (cfg : ServiceConfig) (now : Nat)
    (bid : String) (r : Status) (st : ServiceState) :
    (PassBarrier cfg now bid r st).1.shuttingDown = st.shuttingDown := by
  unfold PassBarrier
  rw [(passBarrierFinish_flags bid r _).1, shutdownHook_shuttingDown]
  exact (passBarrierStart_flags bid r st).1

theorem sendErrorPollingResponse_shuttingDown (e : Status) (st : ServiceState) :
    (SendErrorPollingResponse e st).1.shuttingDown = st.shuttingDown := by
  unfold SendErrorPollingResponse
  split
  · rfl
  · rfl

theorem stop_shuttingDown (cfg : ServiceConfig) (now : Nat) (s : ServiceState) :
    (Stop cfg now s).1.shuttingDown = true := by
  unfold Stop
  simp only []
  split
  · rw [sendErrorPollingResponse_shuttingDown]
    refine foldl_preserve
      (fun (acc : ServiceState × Events) => acc.1.shuttingDown = true) _ _ _ ?_ rfl
    intro acc bid2 hacc
    split
    · exact hacc
    · split
      · exact hacc
      · rw [passBarrier_shuttingDown]
        exact hacc
  · refine foldl_preserve
      (fun (acc : ServiceState × Events) => acc.1.shuttingDown = true) _ _ _ ?_ rfl
    intro acc bid2 hacc
    split
    · exact hacc
    · split
      · exact hacc
      · rw [passBarrier_shuttingDown]
        exact hacc

/-- Claim C9: in pull mode, for every non-OK error on a running service,
SendErrorPollingResponseOrStopService stops the service and returns true
exactly when no task has ever polled for errors; with at least one poll
recorded it returns false, leaves the service running, and (when no
earlier error already responded) delivers the error to every queued poll
callback and latches the responded flag with that error. -/
theorem sendErrorPollingResponseOrStopService_claim (cfg : ServiceConfig)
    (now : Nat) (error : Status) (s : ServiceState)
    (herr : ¬ error.isOk) (hsd : s.shuttingDown = false) :
    ((SendErrorPollingResponseOrStopService cfg now error s).1 = true ↔
      s.clientPollingForError = false) ∧
    ((SendErrorPollingResponseOrStopService cfg now error s).1 = true ↔
      (SendErrorPollingResponseOrStopService cfg now error s).2.1.shuttingDown
        = true) ∧
    (s.clientPollingForError = true →
      (SendErrorPollingResponseOrStopService cfg now error s).1 = false ∧
      (SendErrorPollingResponseOrStopService cfg now error s).2.1.shuttingDown
        = false ∧
      (s.errResponded = false →
        (SendErrorPollingResponseOrStopService cfg now error s).2.2 =
          s.errDoneCallbacks.map (fun c => (c, error)) ∧
        (SendErrorPollingResponseOrStopService cfg now error s).2.1.errResponded
          = true ∧
        (SendErrorPollingResponseOrStopService cfg now error s).2.1.errError
          = error)) := by
  by_cases hcp : s.clientPollingForError = true
  · have hred : SendErrorPollingResponseOrStopService cfg now error s =
        (false, (SendErrorPollingResponse error s).1,
          (SendErrorPollingResponse error s).2) := by
      unfold SendErrorPollingResponseOrStopService
      rw [if_pos hcp]
    rw [hred]
    refine ⟨by simp [hcp], ?_, ?_⟩
    · rw [sendErrorPollingResponse_shuttingDown, hsd]
    · intro _
      refine ⟨rfl, by rw [sendErrorPollingResponse_shuttingDown]; exact hsd, ?_⟩
      intro hnr
      have hred2 : SendErrorPollingResponse error s =
          ({ s with
            errResponded := true,
            errError := error,
            errDoneCallbacks := [] },
            s.errDoneCallbacks.map (fun c => (c, error))) := by
        unfold SendErrorPollingResponse
        rw [if_neg (by simp [hnr])]
      rw [hred2]
      exact ⟨rfl, rfl, rfl⟩
  · have hred : SendErrorPollingResponseOrStopService cfg now error s =
        (true, (Stop cfg now s).1, (Stop cfg now s).2) := by
      unfold SendErrorPollingResponseOrStopService
      rw [if_neg hcp]
    rw [hred]
    refine ⟨by simpa using hcp, ?_, ?_⟩
    · rw [stop_shuttingDown]
    · intro hcon
      exact absurd hcon hcp

/-- Claim C10: GetTaskState is only well-defined when every queried task
is declared: embedded totally with the operator-indexing as an Option
lookup, the result is defined (one entry per queried task) whenever every
queried task is in the cluster table, and the error branch is reached as
soon as any queried task is undeclared. -/
theorem getTaskState_total_claim :
    (∀ (s : ServiceState) (tasks : List CoordinatedTask),
      (∀ t ∈ tasks, (alookup s.clusterState t).isSome) →
      ∃ l, GetTaskState s tasks = some l ∧ l.length = tasks.length) ∧
    (∀ (s : ServiceState) (tasks : List CoordinatedTask)
        (t : CoordinatedTask),
      t ∈ tasks → alookup s.clusterState t = none →
      GetTaskState s tasks = none) := by
  constructor
  · intro s tasks
    induction tasks with
    | nil => intro _; exact ⟨[], rfl, rfl⟩
    | cons t rest ih =>
      intro h
      obtain ⟨ts, hts⟩ := Option.isSome_iff_exists.mp
        (h t (List.mem_cons_self t rest))
      obtain ⟨l, hl, hlen⟩ := ih (fun u hu => h u (List.mem_cons_of_mem t hu))
      refine ⟨⟨t, ts.state, ts.status.code, ts.status.msg,
        decide (¬ ts.status.isOk)⟩ :: l, ?_, by simp [hlen]⟩
      unfold GetTaskState
      rw [hts, hl]
  · intro s tasks
    induction tasks with
    | nil => intro t ht _; exact absurd ht (List.not_mem_nil t)
    | cons u rest ih =>
      intro t ht hnone
      rcases List.mem_cons.mp ht with rfl | hrest
      · unfold GetTaskState
        rw [hnone]
      · unfold GetTaskState
        cases hu : alookup s.clusterState u with
        | none => rfl
        | some ts =>
          rw [ih t hrest hnone]

/-! ### RecordHeartbeat reduction and the C8 claim -/

theorem recordHeartbeat_reduce (cfg : ServiceConfig) (now : Nat)
    (task : CoordinatedTask) (inc : Nat) (s : ServiceState) (ts : TaskState)
    (hsd : s.shuttingDown = false)
    (hts : alookup s.clusterState task = some ts) :
    RecordHeartbeat cfg now task inc s =
      (if ¬ ts.status.isOk then (ts.status, s, ([] : Events))
      else if ts.beyondGrace now then
        (makeCoordinationError StatusCode.invalidArgument
          ("Task with task_name=" ++ getTaskName task
            ++ " must be registered before sending heartbeat messages"),
          s, ([] : Events))
      else if inc ≠ ts.taskIncarnation then
        (makeCoordinationError StatusCode.aborted
          ("Incarnation ID mismatch: expecting " ++ toString ts.taskIncarnation
            ++ " but got " ++ toString inc
            ++ ". This means the remote task has restarted."),
          (PropagateError cfg now task
            (SetTaskError cfg now task
              (makeCoordinationError StatusCode.aborted
                ("Incarnation ID mismatch: expecting "
                  ++ toString ts.taskIncarnation ++ " but got " ++ toString inc
                  ++ ". This means the remote task has restarted.")) s).1).1,
          (SetTaskError cfg now task
            (makeCoordinationError StatusCode.aborted
              ("Incarnation ID mismatch: expecting "
                ++ toString ts.taskIncarnation ++ " but got " ++ toString inc
                ++ ". This means the remote task has restarted.")) s).2 ++
          (PropagateError cfg now task
            (SetTaskError cfg now task
              (makeCoordinationError StatusCode.aborted
                ("Incarnation ID mismatch: expecting "
                  ++ toString ts.taskIncarnation ++ " but got " ++ toString inc
                  ++ ". This means the remote task has restarted.")) s).1).2)
      else
        (okStatus,
          { s with
            clusterState := aupdate task (fun t => { t with lastHeartbeatUs := now }) s.clusterState },
          ([] : Events))) := by
  unfold RecordHeartbeat
  rw [if_neg (by simp [hsd]), hts]

theorem propagateError_push (cfg : ServiceConfig) (now : Nat)
    (task : CoordinatedTask) (s : ServiceState)
    (hcc : cfg.hasClientCache = true) :
    PropagateError cfg now task s = (s, []) := by
  simp [PropagateError, hcc]

theorem setErrorIfNew_ongoing (err : Status) (ts : TaskState) :
    (TaskState.setErrorIfNew err ts).ongoingBarriers = ts.ongoingBarriers := by
  unfold TaskState.setErrorIfNew
  split
  · rfl
  · rfl

theorem coreMap_passBarrier_ne_shutdown (cfg : ServiceConfig) (now : Nat)
    (bid2 : String) (r : Status) (st : ServiceState)
    (hne : bid2 ≠ shutdownBarrierId cfg) :
    coreMap (PassBarrier cfg now bid2 r st).1.clusterState =
      coreMap st.clusterState := by
  unfold PassBarrier
  rw [passBarrierFinish_cluster]
  unfold shutdownHook
  rw [if_neg hne]
  show coreMap (passBarrierStart bid2 r st).clusterState = _
  simp only [passBarrierStart]
  split
  · rfl
  · exact coreMap_exitBarrierAll bid2 _ _

theorem setTaskError_coreMap (cfg : ServiceConfig) (now : Nat)
    (task : CoordinatedTask) (err : Status) (s : ServiceState) (ts : TaskState)
    (hts : alookup s.clusterState task = some ts)
    (hsb : shutdownBarrierId cfg ∉ ts.ongoingBarriers) :
    coreMap (SetTaskError cfg now task err s).1.clusterState =
      coreMap (aupdate task (TaskState.setErrorIfNew err) s.clusterState) := by
  unfold SetTaskError
  simp only []
  have hobs : alookup (aupdate task (TaskState.setErrorIfNew err)
      s.clusterState) task = some (TaskState.setErrorIfNew err ts) := by
    rw [alookup_aupdate, if_pos rfl, hts]
    rfl
  rw [hobs]
  refine foldl_preserve_mem
    (fun (acc : ServiceState × Events) =>
      coreMap acc.1.clusterState =
        coreMap (aupdate task (TaskState.setErrorIfNew err) s.clusterState))
    _ _ _ ?_ rfl
  intro acc bid2 hbid2 hacc
  have hne : bid2 ≠ shutdownBarrierId cfg := by
    intro he
    have hbid2b : bid2 ∈ (TaskState.setErrorIfNew err ts).ongoingBarriers :=
      hbid2
    rw [setErrorIfNew_ongoing] at hbid2b
    exact hsb (he ▸ hbid2b)
  show coreMap (PassBarrier cfg now bid2 _ _).1.clusterState = _
  rw [coreMap_passBarrier_ne_shutdown cfg now bid2 _ _ hne]
  exact hacc

/-- Claim C8 counterexample: a task that registered with incarnation 7 and
was then reset holds an OK status; a heartbeat with the matching
incarnation 7 arriving after the disconnect grace period has elapsed is
rejected with InvalidArgument, where the claim (status OK, incarnation
equal) predicts an OK reply with a refreshed heartbeat timestamp. -/
theorem recordHeartbeat_grace_counterexample :
    ((alookup c8S.clusterState wT0).map
        (fun ts => (decide ts.status.isOk, ts.taskIncarnation)) =
      some (true, 7)) ∧
    c8S.shuttingDown = false ∧
    (RecordHeartbeat wCfg 10000001 wT0 7 c8S).1.code =
      StatusCode.invalidArgument :=
  ⟨by decide, by decide, by decide⟩

/-- Claim C8 (amended): RecordHeartbeat on a declared task while the
service is running: a stored non-OK status is returned verbatim with no
state change; a task disconnected beyond its grace period is rejected
with InvalidArgument with no state change, even if the incarnation
matches; otherwise an incarnation mismatch always returns the Aborted
incarnation-mismatch error, records it through SetError and propagates
it — which leaves the task in ERROR with that same status in push mode
(client cache present) when the task was not already in ERROR and was
not a participant of the shutdown barrier; when it had arrived at the
un-passed shutdown barrier that barrier now passes and its completion
hook disconnects the task instead, and in pull mode the propagation may
stop the service and delete the record, so the ERROR outcome is stated
under exactly those three conditions; otherwise the heartbeat timestamp
is refreshed and OK returned. -/
theorem recordHeartbeat_claim (cfg : ServiceConfig) (now : Nat)
    (task : CoordinatedTask) (inc : Nat) (s : ServiceState) (ts : TaskState)
    (hsd : s.shuttingDown = false)
    (hts : alookup s.clusterState task = some ts) :
    (¬ ts.status.isOk →
      RecordHeartbeat cfg now task inc s = (ts.status, s, [])) ∧
    (ts.status.isOk → ts.beyondGrace now →
      (RecordHeartbeat cfg now task inc s).1.code =
        StatusCode.invalidArgument ∧
      (RecordHeartbeat cfg now task inc s).2.1 = s ∧
      (RecordHeartbeat cfg now task inc s).2.2 = []) ∧
    (ts.status.isOk → ¬ ts.beyondGrace now → inc ≠ ts.taskIncarnation →
      (RecordHeartbeat cfg now task inc s).1 =
        makeCoordinationError StatusCode.aborted
          ("Incarnation ID mismatch: expecting " ++ toString ts.taskIncarnation
            ++ " but got " ++ toString inc
            ++ ". This means the remote task has restarted.")) ∧
    (ts.status.isOk → ¬ ts.beyondGrace now → inc ≠ ts.taskIncarnation →
      cfg.hasClientCache = true → ts.state ≠ TaskStateEnum.error →
      shutdownBarrierId cfg ∉ ts.ongoingBarriers →
      coreMap (RecordHeartbeat cfg now task inc s).2.1.clusterState task =
        some (TaskStateEnum.error, (RecordHeartbeat cfg now task inc s).1)) ∧
    (ts.status.isOk → ¬ ts.beyondGrace now → inc = ts.taskIncarnation →
      RecordHeartbeat cfg now task inc s =
        (okStatus,
          { s with
            clusterState := aupdate task (fun t => { t with lastHeartbeatUs := now }) s.clusterState },
          [])) := by
  rw [recordHeartbeat_reduce cfg now task inc s ts hsd hts]
  refine ⟨?_, ?_, ?_, ?_, ?_⟩
  · intro h
    rw [if_pos h]
  · intro hok hbg
    rw [if_neg (not_not_intro hok), if_pos hbg]
    exact ⟨rfl, rfl, rfl⟩
  · intro hok hbg hinc
    rw [if_neg (not_not_intro hok), if_neg hbg, if_pos hinc]
  · intro hok hbg hinc hcc hne hsb
    rw [if_neg (not_not_intro hok), if_neg hbg, if_pos hinc]
    show coreMap (PropagateError cfg now task
        (SetTaskError cfg now task _ s).1).1.clusterState task = _
    rw [propagateError_push cfg now task _ hcc]
    rw [setTaskError_coreMap cfg now task _ s ts hts hsb]
    unfold coreMap
    rw [alookup_aupdate, if_pos rfl, hts]
    show some ((TaskState.setErrorIfNew _ ts).state,
      (TaskState.setErrorIfNew _ ts).status) = _
    unfold TaskState.setErrorIfNew
    rw [if_neg hne]
  · intro hok hbg hinc
    rw [if_neg (not_not_intro hok), if_neg hbg, if_neg (not_not_intro hinc)]

/-- Witness for the amended C8 theorem at a concrete input: a freshly
initialized cluster, task ("j", 0), matching incarnation 0 at time 0
refreshes the heartbeat timestamp and returns OK. -/
theorem recordHeartbeat_claim_witness :
    (initState wCfg).shuttingDown = false ∧
    alookup (initState wCfg).clusterState wT0 = some initTaskState ∧
    RecordHeartbeat wCfg 0 wT0 0 (initState wCfg) =
      (okStatus,
        { initState wCfg with
          clusterState := aupdate wT0 (fun t => { t with lastHeartbeatUs := 0 }) (initState wCfg).clusterState },
        []) :=
  ⟨rfl, by decide,
    (recordHeartbeat_claim wCfg 0 wT0 0 (initState wCfg) initTaskState rfl
      (by decide)).2.2.2.2 (by decide) (by decide) (by decide)⟩

theorem clusterOK_aupdate (k : CoordinatedTask) (f : TaskState → TaskState)
    (cs : List (CoordinatedTask × TaskState))
    (hf : ∀ ts, TaskOK ts → TaskOK (f ts)) (h : ClusterOK cs) :
    ClusterOK (aupdate k f cs) := by
  intro p hp
  unfold aupdate at hp
  obtain ⟨q, hq, hpq⟩ := List.mem_map.mp hp
  by_cases hqk : q.1 = k
  · rw [if_pos hqk] at hpq
    rw [← hpq]
    exact hf q.2 (h q hq)
  · rw [if_neg hqk] at hpq
    rw [← hpq]
    exact h q hq

theorem taskOK_setConnected (now inc : Nat) (ts : TaskState) :
    TaskOK (TaskState.setConnected now inc ts) := by
  constructor
  · intro _
    exact (by decide : okStatus.isOk)
  · intro h
    exact nomatch h

theorem taskOK_disconnect (now g : Nat) (ts : TaskState) :
    TaskOK (TaskState.disconnect now g ts) := by
  constructor
  · intro h
    exact nomatch h
  · intro h
    exact nomatch h

theorem taskOK_setErrorIfNew (err : Status) (ts : TaskState)
    (he : ¬ err.isOk) (h : TaskOK ts) :
    TaskOK (TaskState.setErrorIfNew err ts) := by
  unfold TaskState.setErrorIfNew
  split
  · exact h
  · constructor
    · intro hc
      exact nomatch hc
    · intro _
      exact he

theorem clusterOK_exitBarrierAll (bid : String)
    (tasks : List (CoordinatedTask × Bool))
    (cs : List (CoordinatedTask × TaskState)) (h : ClusterOK cs) :
    ClusterOK (exitBarrierAll bid tasks cs) := by
  unfold exitBarrierAll
  refine foldl_preserve ClusterOK _ tasks cs ?_ h
  intro x p hx
  exact clusterOK_aupdate p.1 _ x (fun ts ht => ht) hx

theorem statusInv_passBarrierStart (bid : String) (r : Status)
    (s : ServiceState) (h : StatusInv s) :
    StatusInv (passBarrierStart bid r s) := by
  unfold passBarrierStart
  simp only []
  split
  · exact h
  · exact clusterOK_exitBarrierAll bid _ _ h

theorem statusInv_passBarrierFinish (bid : String) (r : Status)
    (se : ServiceState × Events) (h : StatusInv se.1) :
    StatusInv (passBarrierFinish bid r se).1 := h

theorem statusInv_passBarrierNoHook (bid : String) (r : Status)
    (s : ServiceState) (h : StatusInv s) :
    StatusInv (passBarrierNoHook bid r s).1 :=
  statusInv_passBarrierFinish bid r _ (statusInv_passBarrierStart bid r s h)

theorem statusInv_disconnectTaskWith
    (pass : String → Status → ServiceState → ServiceState × Events)
    (cfg : ServiceConfig) (now : Nat) (task : CoordinatedTask)
    (s : ServiceState)
    (hpass : ∀ bid err u, StatusInv u → StatusInv (pass bid err u).1)
    (h : StatusInv s) :
    StatusInv (disconnectTaskWith pass cfg now task s).2.1 := by
  unfold disconnectTaskWith
  split
  · exact h
  · split
    · exact h
    · split
      · exact h
      · simp only []
        refine foldl_preserve
          (fun acc : ServiceState × Events => StatusInv acc.1) _ _ _ ?_ ?_
        · intro x b hx
          exact hpass b _ _ hx
        · exact clusterOK_aupdate task _ _
            (fun ts _ => taskOK_disconnect now (cfg.heartbeatTimeoutMs * 1000) ts) h

theorem statusInv_shutdownHook (cfg : ServiceConfig) (now : Nat)
    (bid : String) (tasks : List (CoordinatedTask × Bool)) (s : ServiceState)
    (h : StatusInv s) :
    StatusInv (shutdownHook cfg now bid tasks s).1 := by
  unfold shutdownHook
  split
  · refine foldl_preserve
      (fun acc : ServiceState × Events => StatusInv acc.1) _ _ _ ?_ h
    intro x p hx
    by_cases hp : p.2 = true
    · rw [if_pos hp]
      exact statusInv_disconnectTaskWith passBarrierNoHook cfg now p.1 x.1
        (fun b e u hu => statusInv_passBarrierNoHook b e u hu) hx
    · rw [if_neg hp]
      exact hx
  · exact h

theorem statusInv_PassBarrier (cfg : ServiceConfig) (now : Nat)
    (bid : String) (r : Status) (s : ServiceState) (h : StatusInv s) :
    StatusInv (PassBarrier cfg now bid r s).1 := by
  unfold PassBarrier
  exact statusInv_passBarrierFinish bid r _
    (statusInv_shutdownHook cfg now bid _ _ (statusInv_passBarrierStart bid r s h))

theorem statusInv_SetTaskError (cfg : ServiceConfig) (now : Nat)
    (task : CoordinatedTask) (err : Status) (s : ServiceState)
    (he : ¬ err.isOk) (h : StatusInv s) :
    StatusInv (SetTaskError cfg now task err s).1 := by
  unfold SetTaskError
  simp only []
  refine foldl_preserve
    (fun acc : ServiceState × Events => StatusInv acc.1) _ _ _ ?_ ?_
  · intro x b hx
    exact statusInv_PassBarrier cfg now b _ _ hx
  · exact clusterOK_aupdate task _ _
      (fun ts ht => taskOK_setErrorIfNew err ts he ht) h

theorem sendErrorPollingResponse_cluster (e : Status) (s : ServiceState) :
    (SendErrorPollingResponse e s).1.clusterState = s.clusterState := by
  unfold SendErrorPollingResponse
  split
  · rfl
  · rfl

theorem stop_cluster (cfg : ServiceConfig) (now : Nat) (s : ServiceState) :
    (Stop cfg now s).1.clusterState = [] := by
  unfold Stop
  simp only []
  split
  · rw [sendErrorPollingResponse_cluster]
  · rfl

theorem statusInv_Stop (cfg : ServiceConfig) (now : Nat) (s : ServiceState) :
    StatusInv (Stop cfg now s).1 := by
  unfold StatusInv ClusterOK
  rw [stop_cluster]
  intro p hp
  exact absurd hp (List.not_mem_nil p)

theorem statusInv_sendOrStop (cfg : ServiceConfig) (now : Nat) (e : Status)
    (s : ServiceState) (h : StatusInv s) :
    StatusInv (SendErrorPollingResponseOrStopService cfg now e s).2.1 := by
  unfold SendErrorPollingResponseOrStopService
  split
  · intro p hp
    rw [sendErrorPollingResponse_cluster] at hp
    exact h p hp
  · exact statusInv_Stop cfg now s

theorem statusInv_PropagateError (cfg : ServiceConfig) (now : Nat)
    (t : CoordinatedTask) (s : ServiceState) (h : StatusInv s) :
    StatusInv (PropagateError cfg now t s).1 := by
  unfold PropagateError
  split
  · exact h
  · simp only []
    split
    · exact h
    · split
      · exact statusInv_sendOrStop cfg now _ s h
      · exact h

theorem statusInv_RegisterTask (cfg : ServiceConfig) (now : Nat)
    (task : CoordinatedTask) (inc : Nat) (s : ServiceState)
    (h : StatusInv s) :
    StatusInv (RegisterTask cfg now task inc s).2.1 := by
  unfold RegisterTask
  split
  · exact h
  · split
    · exact h
    · split
      · exact clusterOK_aupdate task _ _
          (fun ts _ => taskOK_setConnected now inc ts) h
      · split
        · split
          · exact clusterOK_aupdate task _ _
              (fun ts _ => taskOK_setConnected now inc ts) h
          · exact statusInv_PropagateError cfg now task _
              (statusInv_SetTaskError cfg now task _ s (fun hc => nomatch hc) h)
        · exact statusInv_PropagateError cfg now task _
            (statusInv_SetTaskError cfg now task _ s (fun hc => nomatch hc) h)

theorem statusInv_RecordHeartbeat (cfg : ServiceConfig) (now : Nat)
    (task : CoordinatedTask) (inc : Nat) (s : ServiceState)
    (h : StatusInv s) :
    StatusInv (RecordHeartbeat cfg now task inc s).2.1 := by
  unfold RecordHeartbeat
  split
  · exact h
  · split
    · exact h
    · split
      · exact h
      · split
        · exact h
        · split
          · exact statusInv_PropagateError cfg now task _
              (statusInv_SetTaskError cfg now task _ s (fun hc => nomatch hc) h)
          · exact clusterOK_aupdate task (fun t => { t with lastHeartbeatUs := now })
              s.clusterState (fun ts ht => ht) h

theorem statusInv_ReportTaskError (cfg : ServiceConfig) (now : Nat)
    (task : CoordinatedTask) (err : Status) (s : ServiceState)
    (he : ¬ err.isOk) (h : StatusInv s) :
    StatusInv (ReportTaskError cfg now task err s).2.1 := by
  unfold ReportTaskError
  split
  · exact h
  · split
    · exact h
    · split
      · exact h
      · exact statusInv_PropagateError cfg now task _
          (statusInv_SetTaskError cfg now task err s he h)

theorem statusInv_ResetTask (cfg : ServiceConfig) (now : Nat)
    (task : CoordinatedTask) (s : ServiceState) (h : StatusInv s) :
    StatusInv (ResetTask cfg now task s).2.1 := by
  unfold ResetTask DisconnectTask
  exact statusInv_disconnectTaskWith (PassBarrier cfg now) cfg now task s
    (fun b e u hu => statusInv_PassBarrier cfg now b e u hu) h

theorem statusInv_CheckHeartbeatTimeout (cfg : ServiceConfig) (now : Nat)
    (s : ServiceState) (h : StatusInv s) :
    StatusInv (CheckHeartbeatTimeout cfg now s).1 := by
  unfold CheckHeartbeatTimeout
  simp only []
  split
  · refine foldl_preserve
      (fun acc : ServiceState × Events × List CoordinatedTask =>
        StatusInv acc.1) _ _ _ ?_ h
    intro x t hx
    split
    · exact hx
    · split
      · exact statusInv_SetTaskError cfg now t _ x.1 (fun hc => nomatch hc) hx
      · exact hx
  · split
    · refine statusInv_sendOrStop cfg now _ _ ?_
      refine foldl_preserve
        (fun acc : ServiceState × Events × List CoordinatedTask =>
          StatusInv acc.1) _ _ _ ?_ h
      intro x t hx
      split
      · exact hx
      · split
        · exact statusInv_SetTaskError cfg now t _ x.1 (fun hc => nomatch hc) hx
        · exact hx
    · refine foldl_preserve
        (fun acc : ServiceState × Events => StatusInv acc.1) _ _ _ ?_ ?_
      · intro x t hx
        exact statusInv_PropagateError cfg now t x.1 hx
      · refine foldl_preserve
          (fun acc : ServiceState × Events × List CoordinatedTask =>
            StatusInv acc.1) _ _ _ ?_ h
        intro x t hx
        split
        · exact hx
        · split
          · exact statusInv_SetTaskError cfg now t _ x.1 (fun hc => nomatch hc) hx
          · exact hx

theorem taskOK_init : TaskOK initTaskState := by
  constructor
  · intro h
    exact nomatch h
  · intro h
    exact nomatch h

theorem statusInv_init (cfg : ServiceConfig) : StatusInv (initState cfg) := by
  intro p hp
  unfold initState at hp
  simp only [List.mem_flatten, List.mem_map] at hp
  obtain ⟨l, ⟨j, hj, hl⟩, hpl⟩ := hp
  rw [← hl] at hpl
  obtain ⟨i, hi, hpi⟩ := List.mem_map.mp hpl
  rw [← hpi]
  exact taskOK_init

theorem statusInv_step (cfg : ServiceConfig) {s t : ServiceState}
    (hst : Step cfg s t) (h : StatusInv s) : StatusInv t := by
  cases hst with
  | register now task inc => exact statusInv_RegisterTask cfg now task inc s h
  | heartbeat now task inc =>
    exact statusInv_RecordHeartbeat cfg now task inc s h
  | reportError now task err u hne =>
    exact statusInv_ReportTaskError cfg now task err s hne h
  | reset now task => exact statusInv_ResetTask cfg now task s h
  | sweep now => exact statusInv_CheckHeartbeatTimeout cfg now s h

theorem statusInv_reachable (cfg : ServiceConfig) (s : ServiceState)
    (h : Reachable cfg s) : StatusInv s := by
  induction h with
  | refl => exact statusInv_init cfg
  | tail h1 h2 ih => exact statusInv_step cfg h2 ih

/-- Claim C2 counterexample to the unamended claim: ReportTaskError checks
only that the task is CONNECTED, never that the reported error is non-OK.
Registering task ("j", 0) and then reporting an OK status as its "error"
reaches a state where the task is in ERROR with an OK status, violating
the invariant. -/
theorem statusInv_counterexample :
    (alookup (ReportTaskError wCfg 1 wT0 ⟨StatusCode.ok, "fake", false⟩
        (RegisterTask wCfg 0 wT0 7 wInit).2.1).2.1.clusterState wT0).map
      (fun ts => (ts.state, ts.status.code)) =
    some (TaskStateEnum.error, StatusCode.ok) := by decide

/-- Claim C2 (amended): in every state reachable from the initial state by
RegisterTask, RecordHeartbeat, ReportTaskError, ResetTask and
staleness-sweep transitions — where every ReportTaskError step carries a
non-OK error, as the RPC contract intends — every declared task in
CONNECTED has an OK status and every declared task in ERROR has a non-OK
status. -/
theorem statusInv_claim (cfg : ServiceConfig) (s : ServiceState)
    (h : Reachable cfg s) (task : CoordinatedTask) (ts : TaskState)
    (hts : alookup s.clusterState task = some ts) :
    (ts.state = TaskStateEnum.connected → ts.status.isOk) ∧
    (ts.state = TaskStateEnum.error → ¬ ts.status.isOk) :=
  statusInv_reachable cfg s h (task, ts) (alookup_mem s.clusterState task ts hts)

/-- Witness for the amended C2 theorem: after one RegisterTask step from
the initial state, task ("j", 0) is CONNECTED, and the theorem yields
that its stored status is OK. -/
theorem statusInv_claim_witness :
    (TaskState.setConnected 0 7 initTaskState).status.isOk :=
  (statusInv_claim wCfg (RegisterTask wCfg 0 wT0 7 wInit).2.1
      (Relation.ReflTransGen.single (Step.register 0 wT0 7 wInit)) wT0
      (TaskState.setConnected 0 7 initTaskState) (by decide)).1 (by decide)

/-- Witness for the C4 theorem at a concrete input: both coordinated tasks
listed explicitly against a two-entry participant table validate. -/
theorem validateTaskArgs_claim_witness :
    ValidateTaskArgs [wT0, wT1] [(wT0, false), (wT1, false)] 2 = true :=
  (validateTaskArgs_claim.1 [wT0, wT1] [(wT0, false), (wT1, false)] 2).mpr
    (Or.inr ⟨by decide, by decide, by decide⟩)

/-- Witness for the C5 theorem at a concrete input: cancelling the passed
barrier "x" returns FailedPrecondition and changes nothing. -/
theorem cancelBarrier_claim_witness :
    CancelBarrier wCfg 3 "x" wT0 pS =
      (makeCoordinationError StatusCode.failedPrecondition
        ("Barrier (" ++ "x" ++ ") has already been passed with status code: "
          ++ toString (statusCodeNum pBar.result.code)), pS, []) :=
  (cancelBarrier_claim wCfg 3 "x" wT0 pS).2.1 pBar (by decide) (by decide)
    (by decide)

/-- Witness for the C3 theorem at a concrete input: the first arrival of
task ("j", 0) at the two-task barrier "x" is marked arrived with the
pending count decremented, nothing fired. -/
theorem barrierAsync_arrival_claim_witness :
    alookup (BarrierAsync wCfg 5 "x" 1000 wT0 [] 9 wS).1.barriers "x" =
      some { wBarrier with
        doneCallbacks := wBarrier.doneCallbacks ++ [9],
        tasksAtBarrier := aset wT0 true wBarrier.tasksAtBarrier,
        numPendingTasks := wBarrier.numPendingTasks - 1 } ∧
    (BarrierAsync wCfg 5 "x" 1000 wT0 [] 9 wS).1.clusterState =
      wS.clusterState ∧
    (BarrierAsync wCfg 5 "x" 1000 wT0 [] 9 wS).2 = [] :=
  (barrierAsync_arrival_claim wCfg 5 "x" 1000 wT0 [] 9 wS wBarrier false
      (by decide) (by decide) (by decide) (Or.inl rfl) (by decide)
      (by decide)).2.1 rfl (by decide)

/-- Witness for the amended C1 theorem at a concrete input: cancelling the
passed barrier "x" leaves the state unchanged and fires nothing. -/
theorem passedBarrier_stability_witness :
    (CancelBarrier wCfg 3 "x" wT0 pS).2.1 = pS ∧
    (CancelBarrier wCfg 3 "x" wT0 pS).2.2 = [] :=
  (passedBarrier_stability wCfg "x" pS pBar (by decide) (by decide)
    (by decide) (by decide) (by unfold ClusterExcl; decide)).1 3 wT0

/-- Witness for the C9 theorem at a concrete input: with a pending poll
and no earlier response, the non-OK error is delivered to the queued poll
callback, the service keeps running and the responded flag latches. -/
theorem sendErrorPollingResponseOrStopService_claim_witness :
    (SendErrorPollingResponseOrStopService wCfgPull 4 c9Err c9S).1 = false ∧
    (SendErrorPollingResponseOrStopService wCfgPull 4 c9Err
      c9S).2.1.shuttingDown = false ∧
    (SendErrorPollingResponseOrStopService wCfgPull 4 c9Err c9S).2.2 =
      c9S.errDoneCallbacks.map (fun c => (c, c9Err)) ∧
    (SendErrorPollingResponseOrStopService wCfgPull 4 c9Err
      c9S).2.1.errResponded = true ∧
    (SendErrorPollingResponseOrStopService wCfgPull 4 c9Err
      c9S).2.1.errError = c9Err :=
  have h := (sendErrorPollingResponseOrStopService_claim wCfgPull 4 c9Err c9S
    (by decide) (by decide)).2.2 (by decide)
  have h3 := h.2.2 (by decide)
  ⟨h.1, h.2.1, h3.1, h3.2.1, h3.2.2⟩

/-- Witness for the C10 theorem at a concrete input: querying a declared
and an undeclared task hits the undeclared branch. -/
theorem getTaskState_total_claim_witness :
    GetTaskState wInit [wT0, ⟨"nosuch", 0⟩] = none :=
  getTaskState_total_claim.2 wInit [wT0, ⟨"nosuch", 0⟩] ⟨"nosuch", 0⟩
    (by decide) (by decide)
